import Mathlib

/-!
Verification of `src/helpers/benchmark.py` (ClassiFaaS-Results).

The file gives a shallow embedding of the module's functions:

* `parse_log_file` — the Record Extractor.  A log file is modelled as the
  list of the per-line `json.loads` outcomes: each line is `some j` when the
  line's text is valid JSON with value `j`, and `none` when `json.loads`
  raises `JSONDecodeError` on it (JSON text parsing itself is a Python
  library service, so its outcome is the input of the embedded code).
  Python exceptions escaping a function are modelled by `Except PyErr`.
* `metric_for_benchmark`, `trim_on_benchmark`, `filter_full_lifecycle` —
  the Metric Resolver, Outlier Trimmer and Lifecycle Filter, over a table
  model (`Row`) in which pandas `NaN` cells are `Option.none` and numeric
  cells are exact rationals.
* `load_records_from_directory` — the Directory Aggregator, over a
  directory-tree model; `os.walk` is modelled by `DirTree.walk` and
  `os.sep` by `"/"`.

JSON numbers are modelled as integers (every numeric literal the code
compares against is an integer; float arithmetic is outside the model).
-/

namespace ClassiFaaS

/-- A parsed JSON value (numbers restricted to integers, see the header). -/
inductive Json where
  | null
  | bool (b : Bool)
  | int (n : Int)
  | str (s : String)
  | arr (elems : List Json)
  | obj (entries : List (String × Json))

/-- Python's `==` between a JSON value and a string literal: true exactly on
the equal string (no other JSON value compares equal to a `str`). -/
def jsonEqStr (j : Json) (s : String) : Bool :=
  match j with
  | .str t => t = s
  | _ => false

/-- The Python exceptions that the embedded code can raise or catch. -/
inductive PyErr where
  | keyError
  | valueError
  | typeError
  | attributeError
deriving DecidableEq

/-- `dict` lookup as produced by `json.loads`: with duplicate keys the last
occurrence wins, as in CPython's object decoder. -/
def lookupLast (entries : List (String × Json)) (k : String) : Option Json :=
  entries.foldl (fun acc p => if p.1 = k then some p.2 else acc) none

/-- `d.get(k, default)` on a dict value `d`; on a non-dict value `.get` raises
`AttributeError`. -/
def py_get (j : Json) (k : String) (d : Json) : Except PyErr Json :=
  match j with
  | .obj entries => .ok ((lookupLast entries k).getD d)
  | _ => .error .attributeError

/-- `d[k]` with a string key: `KeyError` when the key is absent from a dict,
`TypeError` when the value is not a dict. -/
def py_subscript (j : Json) (k : String) : Except PyErr Json :=
  match j with
  | .obj entries =>
    match lookupLast entries k with
    | some v => .ok v
    | none => .error .keyError
  | _ => .error .typeError

/-- Does `s` start with `pat`? -/
def startsWithL : List Char → List Char → Bool
  | _, [] => true
  | [], _ :: _ => false
  | c :: cs, p :: ps => c = p && startsWithL cs ps

/-- Left-to-right, non-overlapping replacement of every occurrence of `pat`
(nonempty) by `rep`, on character lists; `fuel` bounds the recursion and is
instantiated with the list's length, which suffices since each step consumes
at least one character. -/
def replaceAux (fuel : Nat) (pat rep : List Char) : List Char → List Char
  | [] => []
  | c :: rest =>
    match fuel with
    | 0 => c :: rest
    | fuel + 1 =>
      if pat ≠ [] ∧ startsWithL (c :: rest) pat then
        rep ++ replaceAux fuel pat rep (List.drop (pat.length - 1) rest)
      else
        c :: replaceAux fuel pat rep rest

/-- `s.replace(old, new)` on a string: every occurrence of `old` replaced by
`new`, left to right; on a non-string value `.replace` raises
`AttributeError`. -/
def py_replace (j : Json) (old new : String) : Except PyErr String :=
  match j with
  | .str s =>
    .ok (String.mk (replaceAux s.toList.length old.toList new.toList s.toList))
  | _ => .error .attributeError

/-- `s.lower()`: defined on strings only, `AttributeError` otherwise. -/
def py_lower (j : Json) : Except PyErr String :=
  match j with
  | .str s => .ok (String.mk (s.toList.map Char.toLower))
  | _ => .error .attributeError

/-- Integer-literal parsing for Python's `int(str)`: optional surrounding
spaces, an optional sign, then one or more digits. -/
def str_to_int (s : String) : Option Int :=
  let cs := s.toList.dropWhile (· = ' ')
  let cs := (cs.reverse.dropWhile (· = ' ')).reverse
  let (neg, ds) : Bool × List Char :=
    match cs with
    | '-' :: rest => (true, rest)
    | '+' :: rest => (false, rest)
    | _ => (false, cs)
  if ds = [] ∨ ¬ ds.all Char.isDigit then none
  else
    let n : Nat := ds.foldl (fun acc c => acc * 10 + (c.toNat - '0'.toNat)) 0
    some (if neg then -(n : Int) else (n : Int))

/-- Python's `int(x)` on a JSON value: an int is returned as is, a bool counts
as `1`/`0`, a string is parsed as an integer literal (`ValueError` when it is
not one), and any other value raises `TypeError`. -/
def py_int (j : Json) : Except PyErr Int :=
  match j with
  | .int n => .ok n
  | .bool b => .ok (if b then 1 else 0)
  | .str s =>
    match str_to_int s with
    | some n => .ok n
    | none => .error .valueError
  | _ => .error .typeError

/-- Truthiness of a JSON value under Python's `bool()`. -/
def py_truthy (j : Json) : Bool :=
  match j with
  | .null => false
  | .bool b => b
  | .int n => n ≠ 0
  | .str s => s ≠ ""
  | .arr elems => ¬ elems.isEmpty
  | .obj entries => ¬ entries.isEmpty

/-- `x >= n` for an integer literal `n`: ints compare directly, bools count as
`1`/`0`, anything else raises `TypeError`. -/
def py_ge (j : Json) (n : Int) : Except PyErr Bool :=
  match j with
  | .int m => .ok (n ≤ m)
  | .bool b => .ok (n ≤ (if b then (1 : Int) else 0))
  | _ => .error .typeError

/-- `x <= n` for an integer literal `n`; see `py_ge`. -/
def py_le (j : Json) (n : Int) : Except PyErr Bool :=
  match j with
  | .int m => .ok (m ≤ n)
  | .bool b => .ok ((if b then (1 : Int) else 0) ≤ n)
  | _ => .error .typeError

/-- Substring test on strings. -/
def strContains (hay needle : String) : Bool :=
  decide (List.IsInfix needle.toList hay.toList)

/-- `needle in hay` where `needle` is a string: substring test on a string,
element membership (via Python `==`) on a list, key membership on a dict,
`TypeError` on the remaining values. -/
def py_contains (needle : String) (hay : Json) : Except PyErr Bool :=
  match hay with
  | .str s => .ok (strContains s needle)
  | .arr elems => .ok (elems.any (fun e => jsonEqStr e needle))
  | .obj entries => .ok ((entries.map Prod.fst).contains needle)
  | _ => .error .typeError

/-- Model of Python `str()` on JSON values.  Scalars are rendered exactly as
CPython renders them; container values (never reached by the claims' inputs,
where `str()` is applied to the scalar `cpuModel` field) are rendered by a
fixed placeholder. -/
def py_str (j : Json) : String :=
  match j with
  | .null => "None"
  | .bool b => if b then "True" else "False"
  | .int n => toString n
  | .str s => s
  | .arr _ => "<list>"
  | .obj _ => "<dict>"

/-- Model of `datetime.fromisoformat` (Python stdlib): the produced datetime is
modelled by its source string, and validity by a structural check of the
leading `YYYY-MM-DD` date part, with any time part required to be introduced
by `T` or a space.  This is a conservative model of the stdlib's grammar,
adequate for the concrete timestamps considered here; an invalid string
raises `ValueError`. -/
def fromisoformat (s : String) : Except PyErr String :=
  match s.toList with
  | y1 :: y2 :: y3 :: y4 :: s1 :: m1 :: m2 :: s2 :: d1 :: d2 :: rest =>
    if ([y1, y2, y3, y4, m1, m2, d1, d2].all Char.isDigit) ∧ s1 = '-' ∧ s2 = '-' ∧
        (rest = [] ∨ rest.headD ' ' = 'T' ∨ rest.headD ' ' = ' ') then
      .ok s
    else .error .valueError
  | _ => .error .valueError

/-! ## Record Extractor (`parse_log_file`, src/helpers/benchmark.py lines 10-150) -/

/-- A value stored in a record: either a JSON value carried over from the
input, or the datetime built from the metadata timestamp (modelled by its
normalized ISO string, see `fromisoformat`). -/
inductive Value where
  | json (j : Json)
  | dt (iso : String)

/-- A record, as the Python dict built by `parse_log_file`: an association
list in key-insertion order (all keys inserted by the code are distinct). -/
abbrev Record := List (String × Value)

/-- First-binding lookup in a record. -/
def Record.find (r : Record) (k : String) : Option Value :=
  match r with
  | [] => none
  | (k1, v) :: rest => if k1 = k then some v else Record.find rest k

/-- Key presence in a record. -/
def Record.hasKey (r : Record) (k : String) : Bool :=
  (Record.find r k).isSome

/-- The common metadata extracted from a log file's first line
(lines 31-38 of the source, **outside** the `try` of lines 24-28). -/
structure Meta where
  timestamp : String
  provider : String
  region : Json
  func : Json
  memory : Int
  parallel : Int
  iterations : Int
  retries : Int

/-- Lines 31-38: the common-metadata extraction from the parsed first line.
Each step models the corresponding Python expression, in evaluation order;
any raised exception propagates (this code is not inside a `try`). -/
def extract_meta (meta : Json) : Except PyErr Meta := do
  let tsRaw ← py_subscript meta "timestamp"
  let tsStr ← py_replace tsRaw "Z" "+00:00"
  let timestamp ← fromisoformat tsStr
  let providerRaw ← py_get meta "provider" (.str "unknown")
  let provider ← py_lower providerRaw
  let region ← py_get meta "region" (.str "unknown")
  let memory ← py_int (← py_get meta "memorySize" (.str "unknown"))
  let func ← py_get meta "function" (.str "unknown")
  let parallel ← py_int (← py_get meta "parallel-requests" (.int 0))
  let iterations ← py_int (← py_get meta "iterationsPerBenchmark" (.int 0))
  let retries ← py_int (← py_get meta "retries" (.int 0))
  pure ⟨timestamp, provider, region, func, memory, parallel, iterations, retries⟩

/-- Lines 51-58: the fixed GCP CPU-model lookup table. -/
def GCP_CPU_MAPPING : List (String × String) :=
  [("1", "Model 1 (AMD)"),
   ("17", "Model 17 (AMD)"),
   ("85", "Model 85 (Intel)"),
   ("106", "Model 106 (Intel)"),
   ("143", "Model 143 (Intel)"),
   ("173", "Model 173 (Intel)")]

/-- Lines 59-62: `GCP_CPU_MAPPING.get(str(model), f"Model {model} (Unknown)")`. -/
def gcp_cpu_label (model : Json) : String :=
  match GCP_CPU_MAPPING.lookup (py_str model) with
  | some label => label
  | none => "Model " ++ py_str model ++ " (Unknown)"

/-- Lines 65-71: the AWS AMD frequency-band reclassification.  Python
evaluates `cpu_frequency_mhz and cpu_frequency_mhz >= lo and
cpu_frequency_mhz <= hi` left to right with short-circuiting, so a falsy
frequency reaches the final `else` without any comparison, and a truthy
non-numeric one raises `TypeError` at the first comparison. -/
def amd_aws_label (freq : Json) : Except PyErr String :=
  if py_truthy freq then
    match py_ge freq 2640 with
    | .error e => .error e
    | .ok ge1 =>
      match (if ge1 then py_le freq 2660 else .ok false) with
      | .error e => .error e
      | .ok le1 =>
        if ge1 && le1 then .ok "AMD EPYC 2.65GHz"
        else
          match py_ge freq 2240 with
          | .error e => .error e
          | .ok ge2 =>
            match (if ge2 then py_le freq 2260 else .ok false) with
            | .error e => .error e
            | .ok le2 =>
              if ge2 && le2 then .ok "AMD EPYC 2.25GHz"
              else .ok "AMD EPYC unknown"
  else .ok "AMD EPYC unknown"

/-- Lines 46-71: resolution of the raw CPU field (pre-normalization) and of
the CPU frequency.  Returns `(cpu_field, cpu_frequency_mhz)`.  Note that
`"AMD" in cpu_field` (line 64) is evaluated before `provider == "aws"`, so it
runs — and can raise — for every provider. -/
def resolve_cpu (provider : String) (body : Json) : Except PyErr (Json × Json) := do
  let cpuField ← py_get body "cpuType" (.str "unknown")
  let cpuFreq ← py_get body "cpuFrequencyMHz" .null
  let cpuField ←
    if provider = "gcp" then do
      let model ← py_get body "cpuModel" (.str "unknown")
      pure (Json.str (gcp_cpu_label model))
    else pure cpuField
  let hasAMD ← py_contains "AMD" cpuField
  if hasAMD && provider = "aws" then do
    let label ← amd_aws_label cpuFreq
    pure (Json.str label, cpuFreq)
  else
    pure (cpuField, cpuFreq)

/-- Modelled from the spec: the CPU Name Normalizer `shorten_cpu_name`
(imported from `helpers/cpus.py`, which is absent from the sources).  The
spec fixes its contract as a pure, total `string → string` mapping whose
unknown inputs pass through unchanged; its internal shortening table is out
of the spec's scope, so strings are modelled as passing through.  A
non-string argument (possible, since the code passes the raw `cpuType`
value) is outside that contract and is modelled as raising `TypeError`. -/
def shorten_cpu_name (j : Json) : Except PyErr String :=
  match j with
  | .str s => .ok s
  | _ => .error .typeError

/-- Lines 105-115: the provider-specific request-id field, read from the
line's `header` object; an unrecognized provider only prints a diagnostic
and contributes no field. -/
def request_id_fields (provider : String) (header : Json) : Except PyErr Record :=
  if provider = "azure" then do
    let v ← py_get header "azure-invocation-id" (.str "unknown")
    pure [("azure_invocation_id", .json v)]
  else if provider = "gcp" then do
    let v ← py_get header "function-execution-id" (.str "unknown")
    pure [("gcp_execution_id", .json v)]
  else if provider = "aws" then do
    let v ← py_get header "aws-request-id" (.str "unknown")
    pure [("aws_request_id", .json v)]
  else if provider = "alibaba" then do
    let v ← py_get header "ali-request-id" (.str "unknown")
    pure [("alibaba_request_id", .json v)]
  else
    pure []

/-- Lines 119-138: the benchmark-type-specific fields, keyed on
`benchmark.get("type")` (default `None`). -/
def benchmark_fields (benchmark : Json) : Except PyErr Record := do
  let bt ← py_get benchmark "type" .null
  if jsonEqStr bt "gemm" then do
    let ms ← py_get benchmark "matrixSize" .null
    let mt ← py_get benchmark "multiplicationTimeMs" .null
    pure [("matrix_size", .json ms), ("multiplication_time_ms", .json mt)]
  else if jsonEqStr bt "aesCtr" then do
    let ks ← py_get benchmark "keySize" .null
    let es ← py_get benchmark "encryptSizeMB" .null
    let et ← py_get benchmark "encryptTimeMs" .null
    pure [("key_size", .json ks), ("encrypt_size_mb", .json es),
          ("encrypt_time_ms", .json et)]
  else if jsonEqStr bt "gzip" then do
    let cs ← py_get benchmark "compressSizeMB" .null
    let ct ← py_get benchmark "compressTimeMS" .null
    pure [("compress_size_mb", .json cs), ("compress_time_ms", .json ct)]
  else if jsonEqStr bt "sha256" then do
    let hs ← py_get benchmark "hashSizeMB" .null
    let ht ← py_get benchmark "hashTimeMs" .null
    pure [("hash_size_mb", .json hs), ("hash_time_ms", .json ht)]
  else if jsonEqStr bt "json" then do
    let jt ← py_get benchmark "jsonTimeMs" .null
    pure [("json_time_ms", .json jt)]
  else
    pure []

/-- Lines 42-141: building one record from one parsed invocation line.  Any
raised exception is returned as `.error` (the enclosing loop catches it and
skips the line). -/
def build_record (m : Meta) (data : Json) : Except PyErr Record := do
  let body ← py_subscript data "body"
  let benchmark ← py_get body "benchmark" (.obj [])
  let (cpuField, cpuFreq) ← resolve_cpu m.provider body
  let cpuType ← shorten_cpu_name cpuField
  let cpuModelNum ← py_get body "cpuModel" (.str "unknown")
  let runtime ← py_get body "runtime" .null
  let userRuntime ← py_get body "userRuntime" .null
  let frameworkRuntime ← py_get body "frameworkRuntime" .null
  let containerId ← py_get body "containerID" (.str "unknown")
  let newContainer ← py_get body "newcontainer" .null
  let invocationCount ← py_get body "invocationCount" .null
  let instanceId ← py_get body "instanceId" (.str "unknown")
  let uuid ← py_get body "uuid" (.str "unknown")
  let benchTypeCommon ← py_get benchmark "type" (.str "unknown")
  let flags ← py_get body "cpuFlags" (.arr [])
  let base : Record :=
    [("timestamp", .dt m.timestamp),
     ("provider", .json (.str m.provider)),
     ("region", .json m.region),
     ("function", .json m.func),
     ("memory_size_mb", .json (.int m.memory)),
     ("parallel_requests", .json (.int m.parallel)),
     ("iterations_per_benchmark", .json (.int m.iterations)),
     ("retries", .json (.int m.retries)),
     ("cpu_type", .json (.str cpuType)),
     ("cpu_model_number", .json cpuModelNum),
     ("runtime_ms", .json runtime),
     ("user_runtime_ms", .json userRuntime),
     ("framework_runtime_ms", .json frameworkRuntime),
     ("container_id", .json containerId),
     ("new_container", .json newContainer),
     ("invocation_count", .json invocationCount),
     ("instance_id", .json instanceId),
     ("uuid", .json uuid),
     ("benchmark_type", .json benchTypeCommon),
     ("flags", .json flags),
     ("cpu_frequency", .json cpuFreq)]
  let header ← py_get data "header" (.obj [])
  let rid ← request_id_fields m.provider header
  let bench ← benchmark_fields benchmark
  pure (base ++ rid ++ bench)

/-- A log file, modelled as the list of the per-line `json.loads` outcomes
(`none` = the line's text is not valid JSON). -/
abbrev LogFile := List (Option Json)

/-- Lines 17-150: `parse_log_file`.  An empty file and a file whose first
line is invalid JSON yield `[]`; lines 31-38 may raise (propagated as
`.error`); each remaining line contributes a record when it parses and its
record builds, and is skipped otherwise (lines 143-148 catch both
`JSONDecodeError` and any other exception). -/
def parse_log_file (lines : LogFile) : Except PyErr (List Record) :=
  match lines with
  | [] => .ok []
  | line0 :: rest =>
    match line0 with
    | none => .ok []
    | some metaJson =>
      match extract_meta metaJson with
      | .error e => .error e
      | .ok m =>
        .ok (rest.foldl (fun acc l =>
          match l with
          | none => acc
          | some data =>
            match build_record m data with
            | .ok r => acc ++ [r]
            | .error _ => acc) [])

/-! ## Metric Resolver (`metric_for_benchmark`, lines 153-164) -/

/-- Lines 157-163: the benchmark-type → metric-name table. -/
def metric_mapping : List (String × String) :=
  [("gemm", "multiplication_time_ms"),
   ("aesCtr", "encrypt_time_ms"),
   ("gzip", "compress_time_ms"),
   ("sha256", "hash_time_ms"),
   ("json", "json_time_ms")]

/-- Lines 153-164: `metric_for_benchmark`, defaulting to `"runtime_ms"`. -/
def metric_for_benchmark (benchmark_type : String) : String :=
  (metric_mapping.lookup benchmark_type).getD "runtime_ms"

/-! ## Table model for the Outlier Trimmer and Lifecycle Filter

A DataFrame is a list of rows.  The columns the two functions consult are
explicit fields; every other (numeric) column lives in `metrics`; a pandas
`NaN` cell is `none`.  Numeric cells are exact rationals, represented as
unnormalized fractions `num / den` (`Q`) whose arithmetic and order use
cross-multiplication only, so that concrete tables evaluate inside the
kernel; a meaningful cell has a positive denominator. -/

/-- An exact rational `num / den`, kept unnormalized. -/
structure Q where
  num : Int
  den : Nat
deriving DecidableEq

/-- `a ≤ b` by cross-multiplication (denominators positive). -/
def Q.le (a b : Q) : Bool := decide (a.num * (b.den : Int) ≤ b.num * (a.den : Int))

/-- `a < b` by cross-multiplication (denominators positive). -/
def Q.lt (a b : Q) : Bool := decide (a.num * (b.den : Int) < b.num * (a.den : Int))

/-- Addition on fractions, without normalization. -/
def Q.add (a b : Q) : Q := ⟨a.num * (b.den : Int) + b.num * (a.den : Int), a.den * b.den⟩

/-- Subtraction on fractions, without normalization. -/
def Q.sub (a b : Q) : Q := ⟨a.num * (b.den : Int) - b.num * (a.den : Int), a.den * b.den⟩

/-- Multiplication on fractions, without normalization. -/
def Q.mul (a b : Q) : Q := ⟨a.num * b.num, a.den * b.den⟩

/-- The integer `n` as a fraction. -/
def Q.ofInt (n : Int) : Q := ⟨n, 1⟩

/-- One row of an assembled table. -/
structure Row where
  cpu_type : String
  timestamp : String
  instance_id : String
  invocation_count : Option Q
  metrics : List (String × Option Q)
deriving DecidableEq

/-- The cell of row `r` in column `m` (an absent column reads as `NaN`,
which is how a missing metric behaves in the comparisons below). -/
def Row.metricVal (r : Row) (m : String) : Option Q :=
  (r.metrics.lookup m).getD none

/-- The grouping key of lines 179-181: always `cpu_type`, extended with
`timestamp` when `group_on_timestamp` is set. -/
def groupKey (group_on_timestamp : Bool) (r : Row) : String × Option String :=
  (r.cpu_type, if group_on_timestamp then some r.timestamp else none)

/-- Sorted insertion, ascending. -/
def insertQ (x : Q) : List Q → List Q
  | [] => [x]
  | y :: ys => if x.le y then x :: y :: ys else y :: insertQ x ys

/-- Insertion sort, ascending. -/
def sortQ : List Q → List Q
  | [] => []
  | x :: xs => insertQ x (sortQ xs)

/-- Model of pandas `Series.quantile(0.99)` (default linear interpolation)
over the non-`NaN` values of a series: with the `n` values sorted ascending
as `v₀ ≤ … ≤ v₍ₙ₋₁₎`, the result is `v_i + γ (v_{i+1} - v_i)` where
`i + γ = 0.99 (n - 1)` and `i = ⌊0.99 (n-1)⌋` (so `i = 99(n-1) / 100` and
`γ = (99(n-1) mod 100) / 100`); an all-`NaN` series yields `NaN` (`none`). -/
def quantile99 (xs : List Q) : Option Q :=
  match sortQ xs with
  | [] => none
  | v :: vs =>
    let s := v :: vs
    let posNum : Nat := 99 * (s.length - 1)
    let i : Nat := posNum / 100
    let g : Q := ⟨(posNum % 100 : Nat), 100⟩
    let vi := s.getD i v
    let vj := s.getD (i + 1) vi
    some (vi.add (g.mul (vj.sub vi)))

/-- Lines 167-187: `trim_on_benchmark`.  `groupby(group_by)[metric]
.transform(trim_outliers)` computes, aligned to each row, `series <= high`
over that row's group's metric series with `high` the group's 99th
percentile; a `NaN` metric value compares `False`.  `df[mask]` keeps the
rows whose mask entry is true. -/
def trim_on_benchmark (df : List Row) (group_on_timestamp : Bool)
    (benchmark : String) : List Row :=
  let metric := metric_for_benchmark benchmark
  let mask := df.map (fun r =>
    let grp := df.filter (fun r2 =>
      decide (groupKey group_on_timestamp r2 = groupKey group_on_timestamp r))
    let vals := grp.filterMap (fun r2 => r2.metricVal metric)
    match r.metricVal metric, quantile99 vals with
    | some x, some high => x.le high
    | _, _ => false)
  ((df.zip mask).filter (fun p => p.2)).map (fun p => p.1)

/-- Lines 192-210: `filter_full_lifecycle`.  `valid_ids` are the
`instance_id` values whose group in the whole input has exactly 4 rows; the
optional cold-start filter keeps `invocation_count > 1` (a `NaN` count
compares `False`). -/
def filter_full_lifecycle (df : List Row) (remove_cold : Bool) : List Row :=
  let valid_ids := (df.map (fun r => r.instance_id)).filter
    (fun i => decide ((df.filter (fun r2 => decide (r2.instance_id = i))).length = 4))
  let subset := df.filter (fun r => valid_ids.contains r.instance_id)
  if remove_cold then
    subset.filter (fun r =>
      match r.invocation_count with
      | some v => (Q.ofInt 1).lt v
      | none => false)
  else subset

/-! ## Directory Aggregator (`load_records_from_directory`, lines 213-230) -/

mutual
/-- A directory: named log files and a forest of named subdirectories.
File contents are `LogFile`s (see above). -/
inductive DirTree where
  | node (files : List (String × LogFile)) (subdirs : DirForest)
/-- A list of named subdirectories. -/
inductive DirForest where
  | nil
  | cons (name : String) (t : DirTree) (rest : DirForest)
end

mutual
/-- Model of `os.walk` (top-down): the visited `(root-path, files)` pairs,
with paths joined by `os.sep = "/"`. -/
def DirTree.walk (root : String) : DirTree → List (String × List (String × LogFile))
  | .node files subdirs => (root, files) :: DirForest.walkAll root subdirs
/-- The walks of a forest of subdirectories, in order. -/
def DirForest.walkAll (root : String) : DirForest → List (String × List (String × LogFile))
  | .nil => []
  | .cons name t rest =>
    DirTree.walk (root ++ "/" ++ name) t ++ DirForest.walkAll root rest
end

/-- `s.endswith(suffix)`. -/
def strEndsWith (s suffix : String) : Bool :=
  startsWithL s.toList.reverse suffix.toList.reverse

/-- `path.split(os.sep)` with `os.sep = "/"`: the path's components. -/
def splitComponents (cs : List Char) : List (List Char) :=
  match cs with
  | [] => [[]]
  | c :: rest =>
    let r := splitComponents rest
    if c = '/' then [] :: r
    else (c :: r.headD []) :: r.tail

/-- The components of a path string, as strings. -/
def pathComponents (s : String) : List String :=
  (splitComponents s.toList).map String.mk

/-- Lines 224-228: the inner loop over one root's files: each file named
`*.log` is parsed and its records appended; an exception raised by
`parse_log_file` propagates. -/
def processFiles (acc : List Record) : List (String × LogFile) → Except PyErr (List Record)
  | [] => .ok acc
  | nf :: rest =>
    if strEndsWith nf.1 ".log" then
      match parse_log_file nf.2 with
      | .ok rs => processFiles (acc ++ rs) rest
      | .error e => .error e
    else processFiles acc rest

/-- Lines 221-228: the `os.walk` loop over the walked `(root, files)` list: a
root one of whose path components is literally `logs` is skipped (`continue`),
every other root's files go through `processFiles`. -/
def processWalk (acc : List Record) :
    List (String × List (String × LogFile)) → Except PyErr (List Record)
  | [] => .ok acc
  | rootFiles :: rest =>
    if (pathComponents rootFiles.1).contains "logs" then processWalk acc rest
    else
      match processFiles acc rootFiles.2 with
      | .ok acc2 => processWalk acc2 rest
      | .error e => .error e

/-- Lines 213-230: `load_records_from_directory`. -/
def load_records_from_directory (log_dir : String) (t : DirTree) :
    Except PyErr (List Record) :=
  processWalk [] (DirTree.walk log_dir t)

/-! ## Spec-side definitions

These definitions transcribe the specification's wording, to be compared
with the source-derived functions above. -/

/-- The record the extraction loop derives from one line: `none` when the
line is invalid JSON or its record build raises (both are skipped). -/
def line_record (m : Meta) (l : Option Json) : Option Record :=
  match l with
  | none => none
  | some data => (build_record m data).toOption

/-- The records of a file whose parse succeeded (and `[]` otherwise). -/
def parse_ok_records (f : LogFile) : List Record :=
  match parse_log_file f with
  | .ok rs => rs
  | .error _ => []

/-- Spec §4.5 / C8: the files the Directory Aggregator processes — those
whose name ends in `.log` and whose path contains no directory component
literally named `logs` — in walk order. -/
def matching_files (w : List (String × List (String × LogFile))) : List LogFile :=
  w.flatMap (fun rootFiles =>
    (rootFiles.2.filter (fun nf =>
      strEndsWith nf.1 ".log" &&
      !(pathComponents rootFiles.1).contains "logs")).map Prod.snd)

/-- Spec §4.5: aggregation over a file sequence — invoke the Record
Extractor on each file and concatenate the records (an extraction error
propagating). -/
def aggregate_spec (acc : List Record) : List LogFile → Except PyErr (List Record)
  | [] => .ok acc
  | f :: rest =>
    match parse_log_file f with
    | .ok rs => aggregate_spec (acc ++ rs) rest
    | .error e => .error e

/-- Spec §4.3 / C3: keep a row iff its resolved metric value is present and
at most the 99th percentile of the metric values within its own group. -/
def trim_keep_spec (df : List Row) (group_on_timestamp : Bool)
    (benchmark : String) (r : Row) : Bool :=
  let metric := metric_for_benchmark benchmark
  let ownGroup := df.filter (fun r2 =>
    decide (groupKey group_on_timestamp r2 = groupKey group_on_timestamp r))
  match r.metricVal metric, quantile99 (ownGroup.filterMap (fun r2 => r2.metricVal metric)) with
  | some x, some high => x.le high
  | _, _ => false

/-- Spec §4.4 / C4: keep a row iff its `instance_id` occurs exactly 4 times
in the whole input table and, when `remove_cold` is set, its
`invocation_count` is present and greater than 1. -/
def lifecycle_keep_spec (df : List Row) (remove_cold : Bool) (r : Row) : Bool :=
  decide ((df.filter (fun r2 => decide (r2.instance_id = r.instance_id))).length = 4) &&
  (!remove_cold ||
    (match r.invocation_count with
     | some v => (Q.ofInt 1).lt v
     | none => false))

/-- C6/C7: the 21 keys of the record literal (lines 73-103), in insertion
order. -/
def commonKeys : List String :=
  ["timestamp", "provider", "region", "function", "memory_size_mb",
   "parallel_requests", "iterations_per_benchmark", "retries", "cpu_type",
   "cpu_model_number", "runtime_ms", "user_runtime_ms",
   "framework_runtime_ms", "container_id", "new_container",
   "invocation_count", "instance_id", "uuid", "benchmark_type", "flags",
   "cpu_frequency"]

/-- C7: the keys the request-id step adds for each provider. -/
def ridKeys (provider : String) : List String :=
  if provider = "azure" then ["azure_invocation_id"]
  else if provider = "gcp" then ["gcp_execution_id"]
  else if provider = "aws" then ["aws_request_id"]
  else if provider = "alibaba" then ["alibaba_request_id"]
  else []

/-- The four provider-specific request-id keys. -/
def allRidKeys : List String :=
  ["azure_invocation_id", "gcp_execution_id", "aws_request_id",
   "alibaba_request_id"]

/-- C6: the keys the benchmark-specific step adds for each
`benchmark.get("type")` value. -/
def benchKeys (bt : Json) : List String :=
  if jsonEqStr bt "gemm" then ["matrix_size", "multiplication_time_ms"]
  else if jsonEqStr bt "aesCtr" then ["key_size", "encrypt_size_mb", "encrypt_time_ms"]
  else if jsonEqStr bt "gzip" then ["compress_size_mb", "compress_time_ms"]
  else if jsonEqStr bt "sha256" then ["hash_size_mb", "hash_time_ms"]
  else if jsonEqStr bt "json" then ["json_time_ms"]
  else []

/-- C6: the nine benchmark-type-specific keys. -/
def allBenchKeys : List String :=
  ["matrix_size", "multiplication_time_ms", "key_size", "encrypt_size_mb",
   "encrypt_time_ms", "compress_size_mb", "compress_time_ms", "hash_size_mb",
   "hash_time_ms", "json_time_ms"]

/-- Spec-side (C2): the fixed GCP model table written out pointwise, with
the unmapped default `"Model {model} (Unknown)"`. -/
def gcp_label_spec (model : Json) : String :=
  if py_str model = "1" then "Model 1 (AMD)"
  else if py_str model = "17" then "Model 17 (AMD)"
  else if py_str model = "85" then "Model 85 (Intel)"
  else if py_str model = "106" then "Model 106 (Intel)"
  else if py_str model = "143" then "Model 143 (Intel)"
  else if py_str model = "173" then "Model 173 (Intel)"
  else "Model " ++ py_str model ++ " (Unknown)"

/-! ## Concrete data for counterexamples and witnesses -/

/-- A metadata line that is valid JSON, carries a valid timestamp, but has
no `memorySize` field: `int(meta.get('memorySize', 'unknown'))` raises
`ValueError` outside any `try`. -/
def meta_no_memory : Json := .obj [("timestamp", .str "2024-05-01T00:00:00Z")]

/-- A well-formed AWS metadata line. -/
def meta_aws : Json :=
  .obj [("timestamp", .str "2024-05-01T00:00:00Z"), ("provider", .str "aws"),
        ("memorySize", .int 128)]

/-- A well-formed metadata line with an empty-string provider. -/
def meta_empty_provider : Json :=
  .obj [("timestamp", .str "2024-05-01T00:00:00Z"), ("provider", .str ""),
        ("memorySize", .int 128)]

/-- A well-formed GCP metadata line. -/
def meta_gcp : Json :=
  .obj [("timestamp", .str "2024-05-01T00:00:00Z"), ("provider", .str "gcp"),
        ("memorySize", .int 256)]

/-- A minimal valid invocation line. -/
def line_minimal : Json := .obj [("body", .obj [])]

/-- The metadata `extract_meta` derives from `meta_aws`. -/
def meta_aws_meta : Meta :=
  ⟨"2024-05-01T00:00:00+00:00", "aws", .str "unknown", .str "unknown",
   128, 0, 0, 0⟩

/-- The metadata `extract_meta` derives from `meta_empty_provider`. -/
def meta_empty_meta : Meta :=
  ⟨"2024-05-01T00:00:00+00:00", "", .str "unknown", .str "unknown",
   128, 0, 0, 0⟩

/-- An invocation line whose `cpuType` is present but the empty string. -/
def line_empty_cpu : Json := .obj [("body", .obj [("cpuType", .str "")])]

/-- The record built from `meta_aws` and `line_gemm`. -/
def rec_gemm : Record :=
  [("timestamp", .dt "2024-05-01T00:00:00+00:00"),
   ("provider", .json (.str "aws")),
   ("region", .json (.str "unknown")),
   ("function", .json (.str "unknown")),
   ("memory_size_mb", .json (.int 128)),
   ("parallel_requests", .json (.int 0)),
   ("iterations_per_benchmark", .json (.int 0)),
   ("retries", .json (.int 0)),
   ("cpu_type", .json (.str "Intel Xeon")),
   ("cpu_model_number", .json (.str "unknown")),
   ("runtime_ms", .json .null),
   ("user_runtime_ms", .json .null),
   ("framework_runtime_ms", .json .null),
   ("container_id", .json (.str "unknown")),
   ("new_container", .json .null),
   ("invocation_count", .json (.int 2)),
   ("instance_id", .json (.str "i-1")),
   ("uuid", .json (.str "unknown")),
   ("benchmark_type", .json (.str "gemm")),
   ("flags", .json (.arr [])),
   ("cpu_frequency", .json .null),
   ("aws_request_id", .json (.str "rid-1")),
   ("matrix_size", .json (.int 64)),
   ("multiplication_time_ms", .json .null)]

/-- The record built from `meta_empty_provider` and `line_minimal`: its
`provider` is the empty string. -/
def c9_record : Record :=
  [("timestamp", .dt "2024-05-01T00:00:00+00:00"),
   ("provider", .json (.str "")),
   ("region", .json (.str "unknown")),
   ("function", .json (.str "unknown")),
   ("memory_size_mb", .json (.int 128)),
   ("parallel_requests", .json (.int 0)),
   ("iterations_per_benchmark", .json (.int 0)),
   ("retries", .json (.int 0)),
   ("cpu_type", .json (.str "unknown")),
   ("cpu_model_number", .json (.str "unknown")),
   ("runtime_ms", .json .null),
   ("user_runtime_ms", .json .null),
   ("framework_runtime_ms", .json .null),
   ("container_id", .json (.str "unknown")),
   ("new_container", .json .null),
   ("invocation_count", .json .null),
   ("instance_id", .json (.str "unknown")),
   ("uuid", .json (.str "unknown")),
   ("benchmark_type", .json (.str "unknown")),
   ("flags", .json (.arr [])),
   ("cpu_frequency", .json .null)]

/-- The record built from `meta_aws` and `line_empty_cpu`: its `cpu_type` is
the empty string (the empty `cpuType` passes through the normalizer). -/
def c9_record2 : Record :=
  [("timestamp", .dt "2024-05-01T00:00:00+00:00"),
   ("provider", .json (.str "aws")),
   ("region", .json (.str "unknown")),
   ("function", .json (.str "unknown")),
   ("memory_size_mb", .json (.int 128)),
   ("parallel_requests", .json (.int 0)),
   ("iterations_per_benchmark", .json (.int 0)),
   ("retries", .json (.int 0)),
   ("cpu_type", .json (.str "")),
   ("cpu_model_number", .json (.str "unknown")),
   ("runtime_ms", .json .null),
   ("user_runtime_ms", .json .null),
   ("framework_runtime_ms", .json .null),
   ("container_id", .json (.str "unknown")),
   ("new_container", .json .null),
   ("invocation_count", .json .null),
   ("instance_id", .json (.str "unknown")),
   ("uuid", .json (.str "unknown")),
   ("benchmark_type", .json (.str "unknown")),
   ("flags", .json (.arr [])),
   ("cpu_frequency", .json .null),
   ("aws_request_id", .json (.str "unknown"))]

/-- The record built from `meta_aws` and `line_minimal`. -/
def rec_aws_minimal : Record :=
  [("timestamp", .dt "2024-05-01T00:00:00+00:00"),
   ("provider", .json (.str "aws")),
   ("region", .json (.str "unknown")),
   ("function", .json (.str "unknown")),
   ("memory_size_mb", .json (.int 128)),
   ("parallel_requests", .json (.int 0)),
   ("iterations_per_benchmark", .json (.int 0)),
   ("retries", .json (.int 0)),
   ("cpu_type", .json (.str "unknown")),
   ("cpu_model_number", .json (.str "unknown")),
   ("runtime_ms", .json .null),
   ("user_runtime_ms", .json .null),
   ("framework_runtime_ms", .json .null),
   ("container_id", .json (.str "unknown")),
   ("new_container", .json .null),
   ("invocation_count", .json .null),
   ("instance_id", .json (.str "unknown")),
   ("uuid", .json (.str "unknown")),
   ("benchmark_type", .json (.str "unknown")),
   ("flags", .json (.arr [])),
   ("cpu_frequency", .json .null),
   ("aws_request_id", .json (.str "unknown"))]

/-- A valid AWS invocation line with a `gemm` benchmark. -/
def line_gemm : Json :=
  .obj [("header", .obj [("aws-request-id", .str "rid-1")]),
        ("body", .obj [("cpuType", .str "Intel Xeon"),
                       ("instanceId", .str "i-1"),
                       ("invocationCount", .int 2),
                       ("benchmark", .obj [("type", .str "gemm"),
                                           ("matrixSize", .int 64)])])]

/-- A directory tree after the spec's §4.5 example: a `logs` subtree (whose
file would make extraction raise if it were parsed) and a `run1` subtree
with one well-formed log file. -/
def tree_example : DirTree :=
  .node []
    (.cons "logs" (.node [("x.log", [some meta_no_memory])] .nil)
      (.cons "run1" (.node [("y.log", [some meta_aws, some line_gemm])] .nil)
        .nil))

/-! ## Helper lemmas -/

theorem except_bind_ok {α β : Type} {x : Except PyErr α} {f : α → Except PyErr β}
    {b : β} (h : x >>= f = .ok b) : ∃ a, x = .ok a ∧ f a = .ok b := by
  cases x with
  | ok a => exact ⟨a, rfl, h⟩
  | error e => simp [Bind.bind, Except.bind] at h

theorem aggregate_spec_append (l1 l2 : List LogFile) : ∀ acc,
    aggregate_spec acc (l1 ++ l2) =
      match aggregate_spec acc l1 with
      | .ok a => aggregate_spec a l2
      | .error e => .error e := by
  induction l1 with
  | nil => intro acc; rfl
  | cons f rest ih =>
    intro acc
    simp only [List.cons_append, aggregate_spec]
    cases parse_log_file f with
    | ok rs => exact ih (acc ++ rs)
    | error e => rfl

theorem processFiles_eq_aggregate (fs : List (String × LogFile)) : ∀ acc,
    processFiles acc fs =
      aggregate_spec acc
        ((fs.filter (fun nf => strEndsWith nf.1 ".log")).map Prod.snd) := by
  induction fs with
  | nil => intro acc; rfl
  | cons nf rest ih =>
    intro acc
    cases h : strEndsWith nf.1 ".log" with
    | true =>
      simp only [processFiles, h, if_true, List.filter_cons, List.map_cons,
        aggregate_spec]
      cases parse_log_file nf.2 with
      | ok rs => exact ih (acc ++ rs)
      | error e => rfl
    | false =>
      simp only [processFiles, h, if_false, List.filter_cons, Bool.false_eq_true]
      exact ih acc

theorem matching_files_cons (rf : String × List (String × LogFile))
    (rest : List (String × List (String × LogFile))) :
    matching_files (rf :: rest) =
      (rf.2.filter (fun nf =>
        strEndsWith nf.1 ".log" &&
        !(pathComponents rf.1).contains "logs")).map Prod.snd ++
      matching_files rest := by
  simp [matching_files]

theorem processWalk_eq_aggregate
    (w : List (String × List (String × LogFile))) : ∀ acc,
    processWalk acc w = aggregate_spec acc (matching_files w) := by
  induction w with
  | nil => intro acc; rfl
  | cons rf rest ih =>
    intro acc
    rw [matching_files_cons]
    cases h : (pathComponents rf.1).contains "logs" with
    | true =>
      simp only [processWalk, h, if_true, Bool.not_true, Bool.and_false,
        List.filter_false, List.map_nil, List.nil_append]
      exact ih acc
    | false =>
      simp only [processWalk, h, if_false, Bool.not_false, Bool.and_true,
        Bool.false_eq_true, aggregate_spec_append, processFiles_eq_aggregate]
      cases aggregate_spec acc
          ((rf.2.filter (fun nf => strEndsWith nf.1 ".log")).map Prod.snd) with
      | ok a => exact ih a
      | error e => rfl

theorem aggregate_spec_ok_eq (fs : List LogFile)
    (h : ∀ f ∈ fs, ∃ rs, parse_log_file f = .ok rs) : ∀ acc,
    aggregate_spec acc fs = .ok (acc ++ fs.flatMap parse_ok_records) := by
  induction fs with
  | nil => intro acc; simp [aggregate_spec]
  | cons f rest ih =>
    intro acc
    obtain ⟨rs, hrs⟩ := h f (by simp)
    have ih2 := ih (fun g hg => h g (by simp [hg])) (acc ++ rs)
    simp only [aggregate_spec, hrs, List.flatMap_cons, parse_ok_records]
    rw [ih2]
    simp [List.append_assoc]

theorem parse_log_file_error_iff (ls : LogFile) :
    (∃ e, parse_log_file ls = .error e) ↔
      ∃ mj rest e, ls = some mj :: rest ∧ extract_meta mj = .error e := by
  cases ls with
  | nil => simp [parse_log_file]
  | cons l0 rest =>
    cases l0 with
    | none => simp [parse_log_file]
    | some mj =>
      cases h : extract_meta mj with
      | ok m => simp [parse_log_file, h]
      | error e => simp [parse_log_file, h]

/-! ## C1 -/

/-- **C1** (counterexample): a metadata line that is valid JSON with a valid
timestamp but no `memorySize` field makes
`int(meta.get('memorySize', 'unknown'))` (line 34, outside any `try`) raise
`ValueError`, which escapes both `parse_log_file` and
`load_records_from_directory` — contradicting the claim that an absent
`memorySize` in a valid-JSON metadata line propagates no exception. -/
theorem C1_counterexample :
    parse_log_file [some meta_no_memory] = .error .valueError ∧
    load_records_from_directory "root"
        (.node [("a.log", [some meta_no_memory])] .nil) = .error .valueError :=
  ⟨rfl, rfl⟩

/-- **C1** (amended): `parse_log_file` returns an empty sequence for an empty
file and for a file whose metadata line is invalid JSON, and no per-line
failure escapes; an exception escapes `parse_log_file` exactly when the
metadata line is valid JSON whose field extraction (lines 31-38: timestamp
presence/validity, `memorySize`/`parallel-requests`/`iterationsPerBenchmark`/
`retries` conversion, `provider` lowering) raises; when every matching file's
extraction succeeds, no exception escapes `load_records_from_directory`. -/
theorem C1_amended_error_containment :
    (∀ ls : LogFile,
      (∃ e, parse_log_file ls = .error e) ↔
        ∃ mj rest e, ls = some mj :: rest ∧ extract_meta mj = .error e) ∧
    parse_log_file [] = .ok [] ∧
    (∀ rest : List (Option Json), parse_log_file (none :: rest) = .ok []) ∧
    (∀ (dir : String) (t : DirTree),
      (∀ f ∈ matching_files (DirTree.walk dir t), ∃ rs, parse_log_file f = .ok rs) →
      ∃ rs, load_records_from_directory dir t = .ok rs) := by
  refine ⟨parse_log_file_error_iff, rfl, fun rest => rfl, fun dir t h => ?_⟩
  rw [load_records_from_directory, processWalk_eq_aggregate,
    aggregate_spec_ok_eq _ h]
  exact ⟨_, rfl⟩

/-- **C1** (witness): the amended theorem applied at a concrete failing
metadata line and at a concrete directory tree whose matching file parses. -/
theorem C1_amended_witness :
    (∃ e, parse_log_file [some meta_no_memory] = .error e) ∧
    (∃ rs, load_records_from_directory "root" tree_example = .ok rs) := by
  constructor
  · exact (C1_amended_error_containment.1 [some meta_no_memory]).mpr
      ⟨meta_no_memory, [], .valueError, rfl, rfl⟩
  · refine C1_amended_error_containment.2.2.2 "root" tree_example ?_
    intro f hf
    have hm : matching_files (DirTree.walk "root" tree_example) =
        [[some meta_aws, some line_gemm]] := rfl
    rw [hm, List.mem_singleton] at hf
    subst hf
    exact ⟨_, rfl⟩

/-! ## C8 -/

/-- **C8**: `load_records_from_directory` runs the spec-side aggregation over
exactly the files whose name ends in `".log"` and whose path contains no
directory component literally named `"logs"` (in walk order): it invokes the
Record Extractor on each such file and concatenates the resulting records;
a tree with no matching files yields an empty table. -/
theorem C8_load_records_processes_matching_files (log_dir : String) (t : DirTree) :
    load_records_from_directory log_dir t =
      aggregate_spec [] (matching_files (DirTree.walk log_dir t)) ∧
    (matching_files (DirTree.walk log_dir t) = [] →
      load_records_from_directory log_dir t = .ok []) ∧
    ((∀ f ∈ matching_files (DirTree.walk log_dir t),
        ∃ rs, parse_log_file f = .ok rs) →
      load_records_from_directory log_dir t =
        .ok ((matching_files (DirTree.walk log_dir t)).flatMap parse_ok_records)) := by
  refine ⟨processWalk_eq_aggregate _ _, fun h => ?_, fun h => ?_⟩
  · rw [load_records_from_directory, processWalk_eq_aggregate, h]; rfl
  · rw [load_records_from_directory, processWalk_eq_aggregate,
      aggregate_spec_ok_eq _ h]
    simp

/-- **C8** (witness): on the spec's example tree (`root/logs/x.log`,
`root/run1/y.log`) only `y.log` is matched — even though the walk enters the
`logs` subtree, whose `x.log` would raise if parsed — and the loader returns
exactly its records. -/
theorem C8_witness :
    matching_files (DirTree.walk "root" tree_example) =
      [[some meta_aws, some line_gemm]] ∧
    load_records_from_directory "root" tree_example =
      .ok ((matching_files (DirTree.walk "root" tree_example)).flatMap
        parse_ok_records) := by
  refine ⟨rfl, (C8_load_records_processes_matching_files "root" tree_example).2.2 ?_⟩
  intro f hf
  have hm : matching_files (DirTree.walk "root" tree_example) =
      [[some meta_aws, some line_gemm]] := rfl
  rw [hm, List.mem_singleton] at hf
  subst hf
  exact ⟨_, rfl⟩

/-! ## C5 -/

theorem parse_loop_eq_filterMap (m : Meta) (ls : List (Option Json)) : ∀ acc,
    ls.foldl (fun acc l =>
      match l with
      | none => acc
      | some data =>
        match build_record m data with
        | .ok r => acc ++ [r]
        | .error _ => acc) acc = acc ++ ls.filterMap (line_record m) := by
  induction ls with
  | nil => intro acc; simp
  | cons l rest ih =>
    intro acc
    cases l with
    | none => simpa [line_record] using ih acc
    | some data =>
      cases hb : build_record m data with
      | ok r =>
        simp only [List.foldl_cons, hb, List.filterMap_cons, line_record,
          Except.toOption]
        rw [ih (acc ++ [r])]
        simp
      | error e =>
        simp only [List.foldl_cons, hb, List.filterMap_cons, line_record,
          Except.toOption]
        exact ih acc

/-- **C5**: with a valid metadata line, `parse_log_file` returns exactly one
record per invocation line that parses as JSON and whose record builds, in
input-line order (the `filterMap` of the per-line extraction); a
malformed-JSON line interleaved among valid lines is silently skipped and
leaves the records of the other lines unchanged. -/
theorem C5_per_line_extraction (mj : Json) (m : Meta)
    (h : extract_meta mj = .ok m) :
    (∀ ls : List (Option Json),
      parse_log_file (some mj :: ls) = .ok (ls.filterMap (line_record m))) ∧
    (∀ pre post : List (Option Json),
      parse_log_file (some mj :: (pre ++ none :: post)) =
        parse_log_file (some mj :: (pre ++ post))) := by
  have hmain : ∀ ls : List (Option Json),
      parse_log_file (some mj :: ls) = .ok (ls.filterMap (line_record m)) := by
    intro ls
    simp only [parse_log_file, h]
    rw [parse_loop_eq_filterMap]
    simp
  refine ⟨hmain, fun pre post => ?_⟩
  rw [hmain, hmain]
  simp [List.filterMap_append, line_record]

/-- **C5** (witness): the theorem applied at a concrete AWS log file with a
malformed line between two valid ones. -/
theorem C5_witness :
    parse_log_file [some meta_aws, some line_gemm, none, some line_minimal] =
      .ok ([some line_gemm, none, some line_minimal].filterMap
        (line_record meta_aws_meta)) ∧
    parse_log_file (some meta_aws :: ([some line_gemm] ++ none :: [some line_minimal])) =
      parse_log_file (some meta_aws :: ([some line_gemm] ++ [some line_minimal])) :=
  ⟨(C5_per_line_extraction meta_aws meta_aws_meta rfl).1 _,
   (C5_per_line_extraction meta_aws meta_aws_meta rfl).2 [some line_gemm]
     [some line_minimal]⟩

/-! ## C2 -/

theorem gcp_cpu_label_eq_spec (model : Json) :
    gcp_cpu_label model = gcp_label_spec model := by
  unfold gcp_cpu_label gcp_label_spec GCP_CPU_MAPPING
  by_cases h1 : py_str model = "1"
  · simp [List.lookup, h1]
  by_cases h2 : py_str model = "17"
  · simp [List.lookup, h1, h2]
  by_cases h3 : py_str model = "85"
  · simp [List.lookup, h1, h2, h3]
  by_cases h4 : py_str model = "106"
  · simp [List.lookup, h1, h2, h3, h4]
  by_cases h5 : py_str model = "143"
  · simp [List.lookup, h1, h2, h3, h4, h5]
  by_cases h6 : py_str model = "173"
  · simp [List.lookup, h1, h2, h3, h4, h5, h6]
  have e1 : (py_str model == "1") = false := beq_eq_false_iff_ne.mpr h1
  have e2 : (py_str model == "17") = false := beq_eq_false_iff_ne.mpr h2
  have e3 : (py_str model == "85") = false := beq_eq_false_iff_ne.mpr h3
  have e4 : (py_str model == "106") = false := beq_eq_false_iff_ne.mpr h4
  have e5 : (py_str model == "143") = false := beq_eq_false_iff_ne.mpr h5
  have e6 : (py_str model == "173") = false := beq_eq_false_iff_ne.mpr h6
  simp [List.lookup, e1, e2, e3, e4, e5, e6, h1, h2, h3, h4, h5, h6]

/-- **C2**: pre-normalization CPU resolution.  For provider `gcp` the cpu
field is the fixed table's image of `body.cpuModel` (default `"unknown"`),
unmapped models yielding `"Model {model} (Unknown)"`.  For provider `aws`
with a string cpu field containing `"AMD"`: an integer `cpuFrequencyMHz` in
`2640..2660` yields `"AMD EPYC 2.65GHz"`, in `2240..2260` yields
`"AMD EPYC 2.25GHz"`, and a missing (`null`) or any other integer frequency
yields `"AMD EPYC unknown"`. -/
theorem C2_cpu_resolution :
    (∀ entries : List (String × Json),
      (resolve_cpu "gcp" (.obj entries)).map Prod.fst =
        .ok (.str (gcp_label_spec
          ((lookupLast entries "cpuModel").getD (.str "unknown"))))) ∧
    (∀ (entries : List (String × Json)) (s : String),
      (lookupLast entries "cpuType").getD (.str "unknown") = .str s →
      strContains s "AMD" = true →
      (∀ f : Int,
        (lookupLast entries "cpuFrequencyMHz").getD .null = .int f →
        2640 ≤ f → f ≤ 2660 →
        (resolve_cpu "aws" (.obj entries)).map Prod.fst =
          .ok (.str "AMD EPYC 2.65GHz")) ∧
      (∀ f : Int,
        (lookupLast entries "cpuFrequencyMHz").getD .null = .int f →
        2240 ≤ f → f ≤ 2260 →
        (resolve_cpu "aws" (.obj entries)).map Prod.fst =
          .ok (.str "AMD EPYC 2.25GHz")) ∧
      (((lookupLast entries "cpuFrequencyMHz").getD .null = .null ∨
        (∃ f : Int, (lookupLast entries "cpuFrequencyMHz").getD .null = .int f ∧
          ¬ (2640 ≤ f ∧ f ≤ 2660) ∧ ¬ (2240 ≤ f ∧ f ≤ 2260))) →
        (resolve_cpu "aws" (.obj entries)).map Prod.fst =
          .ok (.str "AMD EPYC unknown"))) := by
  constructor
  · intro entries
    simp [resolve_cpu, py_get, py_contains, gcp_cpu_label_eq_spec, pure,
      Except.pure, Bind.bind, Except.bind, Except.map]
  · intro entries s hs hamd
    refine ⟨?_, ?_, ?_⟩
    · intro f hf h1 h2
      have hne : f ≠ 0 := by omega
      simp [resolve_cpu, py_get, py_contains, hs, hf, hamd, amd_aws_label,
        py_truthy, py_ge, py_le, hne, h1, h2, pure, Except.pure, Bind.bind,
        Except.bind, Except.map]
    · intro f hf h1 h2
      have hne : f ≠ 0 := by omega
      have hnot : ¬ (2640 : Int) ≤ f := by omega
      simp [resolve_cpu, py_get, py_contains, hs, hf, hamd, amd_aws_label,
        py_truthy, py_ge, py_le, hne, h1, h2, hnot, pure, Except.pure,
        Bind.bind, Except.bind, Except.map]
    · rintro (hnull | ⟨f, hf, hb1, hb2⟩)
      · simp [resolve_cpu, py_get, py_contains, hs, hnull, hamd,
          amd_aws_label, py_truthy, pure, Except.pure, Bind.bind,
          Except.bind, Except.map]
      · by_cases hz : f = 0
        · simp [resolve_cpu, py_get, py_contains, hs, hf, hamd,
            amd_aws_label, py_truthy, hz, pure, Except.pure, Bind.bind,
            Except.bind, Except.map]
        · by_cases hge1 : (2640 : Int) ≤ f
          · have hle1 : ¬ f ≤ 2660 := by omega
            by_cases hge2 : (2240 : Int) ≤ f
            · have hle2 : ¬ f ≤ 2260 := by omega
              simp [resolve_cpu, py_get, py_contains, hs, hf, hamd,
                amd_aws_label, py_truthy, py_ge, py_le, hz, hge1, hle1,
                hge2, hle2, pure, Except.pure, Bind.bind, Except.bind,
                Except.map]
            · simp [resolve_cpu, py_get, py_contains, hs, hf, hamd,
                amd_aws_label, py_truthy, py_ge, py_le, hz, hge1, hle1,
                hge2, pure, Except.pure, Bind.bind, Except.bind, Except.map]
          · by_cases hge2 : (2240 : Int) ≤ f
            · have hle2 : ¬ f ≤ 2260 := by omega
              simp [resolve_cpu, py_get, py_contains, hs, hf, hamd,
                amd_aws_label, py_truthy, py_ge, py_le, hz, hge1, hge2,
                hle2, pure, Except.pure, Bind.bind, Except.bind, Except.map]
            · simp [resolve_cpu, py_get, py_contains, hs, hf, hamd,
                amd_aws_label, py_truthy, py_ge, py_le, hz, hge1, hge2,
                pure, Except.pure, Bind.bind, Except.bind, Except.map]

/-- **C2** (witness): the theorem applied at the spec's own examples —
GCP models `"85"` and `999`, and an AWS AMD cpu at 2650, 2250, 2300 MHz and
with a missing frequency. -/
theorem C2_witness :
    (resolve_cpu "gcp" (.obj [("cpuModel", .str "85")])).map Prod.fst =
      .ok (.str "Model 85 (Intel)") ∧
    (resolve_cpu "gcp" (.obj [("cpuModel", .int 999)])).map Prod.fst =
      .ok (.str "Model 999 (Unknown)") ∧
    (resolve_cpu "aws" (.obj [("cpuType", .str "AMD EPYC 7R13"),
        ("cpuFrequencyMHz", .int 2650)])).map Prod.fst =
      .ok (.str "AMD EPYC 2.65GHz") ∧
    (resolve_cpu "aws" (.obj [("cpuType", .str "AMD EPYC 7R13"),
        ("cpuFrequencyMHz", .int 2250)])).map Prod.fst =
      .ok (.str "AMD EPYC 2.25GHz") ∧
    (resolve_cpu "aws" (.obj [("cpuType", .str "AMD EPYC 7R13"),
        ("cpuFrequencyMHz", .int 2300)])).map Prod.fst =
      .ok (.str "AMD EPYC unknown") ∧
    (resolve_cpu "aws" (.obj [("cpuType", .str "AMD EPYC 7R13")])).map Prod.fst =
      .ok (.str "AMD EPYC unknown") := by
  refine ⟨?_, ?_, ?_, ?_, ?_, ?_⟩
  · exact C2_cpu_resolution.1 [("cpuModel", .str "85")]
  · exact C2_cpu_resolution.1 [("cpuModel", .int 999)]
  · exact (C2_cpu_resolution.2 [("cpuType", .str "AMD EPYC 7R13"),
      ("cpuFrequencyMHz", .int 2650)] "AMD EPYC 7R13" rfl (by decide)).1 2650
      rfl (by decide) (by decide)
  · exact (C2_cpu_resolution.2 [("cpuType", .str "AMD EPYC 7R13"),
      ("cpuFrequencyMHz", .int 2250)] "AMD EPYC 7R13" rfl (by decide)).2.1 2250
      rfl (by decide) (by decide)
  · exact (C2_cpu_resolution.2 [("cpuType", .str "AMD EPYC 7R13"),
      ("cpuFrequencyMHz", .int 2300)] "AMD EPYC 7R13" rfl (by decide)).2.2
      (Or.inr ⟨2300, rfl, by decide, by decide⟩)
  · exact (C2_cpu_resolution.2 [("cpuType", .str "AMD EPYC 7R13")]
      "AMD EPYC 7R13" rfl (by decide)).2.2 (Or.inl rfl)

/-! ## C3 -/

theorem zip_map_filter_eq_filter {α : Type} (g : α → Bool) (l : List α) :
    ((l.zip (l.map g)).filter (fun p => p.2)).map (fun p => p.1) = l.filter g := by
  induction l with
  | nil => rfl
  | cons x xs ih =>
    cases hg : g x with
    | true => simp [List.zip_cons_cons, List.filter_cons, hg, ih]
    | false => simp [List.zip_cons_cons, List.filter_cons, hg, ih]

/-- **C3**: `trim_on_benchmark` retains exactly the rows whose resolved
metric value is present and at most the 99th percentile of the metric values
within their own group (key `cpu_type`, extended with `timestamp` when the
flag is set); rows with a missing metric value are dropped; a row's retention
reads the table only through the row's own group; retained rows are a
sublist of the input, each kept verbatim. -/
theorem C3_trim_on_benchmark (df : List Row) (gt : Bool) (b : String) :
    trim_on_benchmark df gt b = df.filter (trim_keep_spec df gt b) ∧
    List.Sublist (trim_on_benchmark df gt b) df ∧
    (∀ r ∈ df, r.metricVal (metric_for_benchmark b) = none →
      r ∉ trim_on_benchmark df gt b) ∧
    (∀ (df' : List Row) (r : Row),
      df.filter (fun r2 => decide (groupKey gt r2 = groupKey gt r)) =
        df'.filter (fun r2 => decide (groupKey gt r2 = groupKey gt r)) →
      trim_keep_spec df gt b r = trim_keep_spec df' gt b r) := by
  have h1 : trim_on_benchmark df gt b = df.filter (trim_keep_spec df gt b) :=
    zip_map_filter_eq_filter _ df
  refine ⟨h1, ?_, ?_, ?_⟩
  · rw [h1]; exact List.filter_sublist df
  · intro r _ hnone hmem
    rw [h1] at hmem
    have := (List.mem_filter.mp hmem).2
    simp [trim_keep_spec, hnone] at this
  · intro df' r h
    simp only [trim_keep_spec]
    rw [h]

/-- The concrete table for the C3 witness: four rows in one group with
metric values 1, 2, 3, 100 and one row in a second group. -/
def rowA1 : Row := ⟨"cpuA", "t1", "i1", none, [("runtime_ms", some ⟨1, 1⟩)]⟩
def rowA2 : Row := ⟨"cpuA", "t1", "i2", none, [("runtime_ms", some ⟨2, 1⟩)]⟩
def rowA3 : Row := ⟨"cpuA", "t1", "i3", none, [("runtime_ms", some ⟨3, 1⟩)]⟩
def rowA4 : Row := ⟨"cpuA", "t1", "i4", none, [("runtime_ms", some ⟨100, 1⟩)]⟩
def rowB1 : Row := ⟨"cpuB", "t1", "i5", none, [("runtime_ms", some ⟨50, 1⟩)]⟩
def rowMissing : Row := ⟨"cpuA", "t1", "i6", none, []⟩
def dfC3 : List Row := [rowA1, rowA2, rowA3, rowA4, rowB1, rowMissing]

/-- **C3** (witness): on the concrete table, the group `cpuA`'s 99th
percentile of `[1, 2, 3, 100]` is `97.09`, so its row `100` is dropped while
the disjoint group `cpuB` keeps its row; the missing-metric row is dropped;
and the locality part applied with the `cpuB` row against the table without
`cpuA` rows. -/
theorem C3_witness :
    trim_on_benchmark dfC3 false "other" = [rowA1, rowA2, rowA3, rowB1] ∧
    rowMissing ∉ trim_on_benchmark dfC3 false "other" ∧
    trim_keep_spec dfC3 false "other" rowB1 =
      trim_keep_spec [rowB1] false "other" rowB1 := by
  refine ⟨?_, ?_, ?_⟩
  · rw [(C3_trim_on_benchmark dfC3 false "other").1]
    decide
  · exact (C3_trim_on_benchmark dfC3 false "other").2.2.1 rowMissing
      (by decide) (by decide)
  · exact (C3_trim_on_benchmark dfC3 false "other").2.2.2 [rowB1] rowB1
      (by decide)

/-! ## C4 -/

/-- **C4**: `filter_full_lifecycle` retains exactly the rows whose
`instance_id` occurs exactly 4 times in the whole input table and — when
`remove_cold` is set — whose `invocation_count` is present and greater
than 1; in particular every retained row's `instance_id` count is 4 (not
merely at least 4), under `remove_cold` no retained row has
`invocation_count ≤ 1`, and the output is a sublist of the input. -/
theorem C4_filter_full_lifecycle (df : List Row) (rc : Bool) :
    filter_full_lifecycle df rc = df.filter (lifecycle_keep_spec df rc) ∧
    List.Sublist (filter_full_lifecycle df rc) df ∧
    (∀ r ∈ filter_full_lifecycle df rc,
      (df.filter (fun r2 => decide (r2.instance_id = r.instance_id))).length = 4) ∧
    (rc = true → ∀ r ∈ filter_full_lifecycle df rc,
      ∀ v, r.invocation_count = some v → (Q.ofInt 1).lt v = true) := by
  have hpt : ∀ r ∈ df,
      (((df.map (fun r => r.instance_id)).filter (fun i =>
          decide ((df.filter (fun r2 => decide (r2.instance_id = i))).length = 4))).contains
        r.instance_id) =
      decide ((df.filter (fun r2 =>
        decide (r2.instance_id = r.instance_id))).length = 4) := by
    intro r hr
    by_cases hc : (df.filter (fun r2 =>
        decide (r2.instance_id = r.instance_id))).length = 4
    · rw [decide_eq_true hc]
      have : r.instance_id ∈ (df.map (fun r => r.instance_id)).filter (fun i =>
          decide ((df.filter (fun r2 => decide (r2.instance_id = i))).length = 4)) :=
        List.mem_filter.mpr ⟨List.mem_map.mpr ⟨r, hr, rfl⟩, by simp [hc]⟩
      simpa using this
    · rw [decide_eq_false hc]
      by_contra hcon
      rw [Bool.not_eq_false] at hcon
      have hmem : r.instance_id ∈ (df.map (fun r => r.instance_id)).filter (fun i =>
          decide ((df.filter (fun r2 => decide (r2.instance_id = i))).length = 4)) := by
        simpa using hcon
      exact hc (of_decide_eq_true (List.mem_filter.mp hmem).2)
  have h1 : filter_full_lifecycle df rc = df.filter (lifecycle_keep_spec df rc) := by
    cases rc with
    | false =>
      simp only [filter_full_lifecycle, if_false, Bool.false_eq_true]
      refine List.filter_congr (fun r hr => ?_)
      rw [hpt r hr]
      simp [lifecycle_keep_spec]
    | true =>
      simp only [filter_full_lifecycle, if_true, List.filter_filter]
      refine List.filter_congr (fun r hr => ?_)
      rw [hpt r hr]
      simp only [lifecycle_keep_spec, Bool.not_true, Bool.false_or]
      cases r.invocation_count with
      | none => simp
      | some v => by_cases hv : (Q.ofInt 1).lt v = true <;> simp [hv, Bool.and_comm]
  refine ⟨h1, ?_, ?_, ?_⟩
  · rw [h1]; exact List.filter_sublist df
  · intro r hm
    rw [h1] at hm
    have h2 := (List.mem_filter.mp hm).2
    simp only [lifecycle_keep_spec, Bool.and_eq_true, decide_eq_true_eq] at h2
    exact h2.1
  · intro hrc r hm v hv
    subst hrc
    rw [h1] at hm
    have h2 := (List.mem_filter.mp hm).2
    simp only [lifecycle_keep_spec, Bool.not_true, Bool.false_or,
      Bool.and_eq_true, hv] at h2
    exact h2.2

/-- The concrete table for the C4 witness: instance `a` has 4 rows (counts
1-4), instance `b` has 3 rows. -/
def rowa1 : Row := ⟨"c", "t", "a", some ⟨1, 1⟩, []⟩
def rowa2 : Row := ⟨"c", "t", "a", some ⟨2, 1⟩, []⟩
def rowa3 : Row := ⟨"c", "t", "a", some ⟨3, 1⟩, []⟩
def rowa4 : Row := ⟨"c", "t", "a", some ⟨4, 1⟩, []⟩
def rowb1 : Row := ⟨"c", "t", "b", some ⟨1, 1⟩, []⟩
def rowb2 : Row := ⟨"c", "t", "b", some ⟨2, 1⟩, []⟩
def rowb3 : Row := ⟨"c", "t", "b", some ⟨3, 1⟩, []⟩
def dfC4 : List Row := [rowa1, rowa2, rowa3, rowa4, rowb1, rowb2, rowb3]

/-- **C4** (witness): with counts `{a: 4, b: 3}` only `a`'s rows remain;
with `remove_cold = true` the `invocation_count = 1` row is additionally
dropped, and the theorem's cold-exclusion clause applies to a retained
row. -/
theorem C4_witness :
    filter_full_lifecycle dfC4 false = [rowa1, rowa2, rowa3, rowa4] ∧
    filter_full_lifecycle dfC4 true = [rowa2, rowa3, rowa4] ∧
    (∀ v, rowa2.invocation_count = some v → (Q.ofInt 1).lt v = true) := by
  refine ⟨?_, ?_, ?_⟩
  · rw [(C4_filter_full_lifecycle dfC4 false).1]; decide
  · rw [(C4_filter_full_lifecycle dfC4 true).1]; decide
  · exact (C4_filter_full_lifecycle dfC4 true).2.2.2 rfl rowa2
      (by rw [(C4_filter_full_lifecycle dfC4 true).1]; decide)

/-! ## Record-shape lemmas for C6, C7, C9 -/

theorem jsonEqStr_true_iff (j : Json) (s : String) :
    jsonEqStr j s = true ↔ j = .str s := by
  cases j <;> simp [jsonEqStr]

theorem Record.hasKey_iff_mem (r : Record) (k : String) :
    r.hasKey k = true ↔ k ∈ r.map Prod.fst := by
  induction r with
  | nil => simp [Record.hasKey, Record.find]
  | cons p rest ih =>
    by_cases hk : p.1 = k
    · simp [Record.hasKey, Record.find, hk]
    · simpa [Record.hasKey, Record.find, hk, Ne.symm hk] using ih

theorem Record.find_append_left (r1 r2 : Record) (k : String)
    (h : k ∈ r1.map Prod.fst) :
    Record.find (r1 ++ r2) k = Record.find r1 k := by
  induction r1 with
  | nil => simp at h
  | cons p rest ih =>
    by_cases hk : p.1 = k
    · simp [Record.find, hk]
    · rw [List.map_cons] at h
      rcases List.mem_cons.mp h with h1 | h1
      · exact absurd h1.symm hk
      · simpa [Record.find, hk] using ih h1

theorem Record.find_append_right (r1 r2 : Record) (k : String)
    (h : k ∉ r1.map Prod.fst) :
    Record.find (r1 ++ r2) k = Record.find r2 k := by
  induction r1 with
  | nil => simp
  | cons p rest ih =>
    have hk : p.1 ≠ k := fun e => h (by simp [e])
    have : k ∉ rest.map Prod.fst := fun e => h (by simp [e])
    simpa [Record.find, hk] using ih this

/-- Destructuring a successful `build_record`: all intermediate extractions
succeeded and the record is the common 21-field literal followed by the
request-id fields and the benchmark-specific fields. -/
theorem build_record_ok_shape {m : Meta} {data : Json} {r : Record}
    (h : build_record m data = .ok r) :
    ∃ body benchmark cpuField cpuFreq cpuType cpuModelNum runtime userRuntime
      frameworkRuntime containerId newContainer invocationCount instanceId
      uuid benchTypeCommon flags header rid bench,
      py_subscript data "body" = .ok body ∧
      py_get body "benchmark" (.obj []) = .ok benchmark ∧
      resolve_cpu m.provider body = .ok (cpuField, cpuFreq) ∧
      shorten_cpu_name cpuField = .ok cpuType ∧
      py_get body "cpuModel" (.str "unknown") = .ok cpuModelNum ∧
      py_get body "runtime" .null = .ok runtime ∧
      py_get body "userRuntime" .null = .ok userRuntime ∧
      py_get body "frameworkRuntime" .null = .ok frameworkRuntime ∧
      py_get body "containerID" (.str "unknown") = .ok containerId ∧
      py_get body "newcontainer" .null = .ok newContainer ∧
      py_get body "invocationCount" .null = .ok invocationCount ∧
      py_get body "instanceId" (.str "unknown") = .ok instanceId ∧
      py_get body "uuid" (.str "unknown") = .ok uuid ∧
      py_get benchmark "type" (.str "unknown") = .ok benchTypeCommon ∧
      py_get body "cpuFlags" (.arr []) = .ok flags ∧
      py_get data "header" (.obj []) = .ok header ∧
      request_id_fields m.provider header = .ok rid ∧
      benchmark_fields benchmark = .ok bench ∧
      r = [("timestamp", .dt m.timestamp),
           ("provider", .json (.str m.provider)),
           ("region", .json m.region),
           ("function", .json m.func),
           ("memory_size_mb", .json (.int m.memory)),
           ("parallel_requests", .json (.int m.parallel)),
           ("iterations_per_benchmark", .json (.int m.iterations)),
           ("retries", .json (.int m.retries)),
           ("cpu_type", .json (.str cpuType)),
           ("cpu_model_number", .json cpuModelNum),
           ("runtime_ms", .json runtime),
           ("user_runtime_ms", .json userRuntime),
           ("framework_runtime_ms", .json frameworkRuntime),
           ("container_id", .json containerId),
           ("new_container", .json newContainer),
           ("invocation_count", .json invocationCount),
           ("instance_id", .json instanceId),
           ("uuid", .json uuid),
           ("benchmark_type", .json benchTypeCommon),
           ("flags", .json flags),
           ("cpu_frequency", .json cpuFreq)] ++ rid ++ bench := by
  unfold build_record at h
  obtain ⟨body, h1, h⟩ := except_bind_ok h
  obtain ⟨benchmark, h2, h⟩ := except_bind_ok h
  obtain ⟨cp, h3, h⟩ := except_bind_ok h
  obtain ⟨cpuField, cpuFreq⟩ := cp
  obtain ⟨cpuType, h4, h⟩ := except_bind_ok h
  obtain ⟨cpuModelNum, h5, h⟩ := except_bind_ok h
  obtain ⟨runtime, h6, h⟩ := except_bind_ok h
  obtain ⟨userRuntime, h7, h⟩ := except_bind_ok h
  obtain ⟨frameworkRuntime, h8, h⟩ := except_bind_ok h
  obtain ⟨containerId, h9, h⟩ := except_bind_ok h
  obtain ⟨newContainer, h10, h⟩ := except_bind_ok h
  obtain ⟨invocationCount, h11, h⟩ := except_bind_ok h
  obtain ⟨instanceId, h12, h⟩ := except_bind_ok h
  obtain ⟨uuid, h13, h⟩ := except_bind_ok h
  obtain ⟨benchTypeCommon, h14, h⟩ := except_bind_ok h
  obtain ⟨flags, h15, h⟩ := except_bind_ok h
  obtain ⟨header, h16, h⟩ := except_bind_ok h
  obtain ⟨rid, h17, h⟩ := except_bind_ok h
  obtain ⟨bench, h18, h⟩ := except_bind_ok h
  refine ⟨body, benchmark, cpuField, cpuFreq, cpuType, cpuModelNum, runtime,
    userRuntime, frameworkRuntime, containerId, newContainer, invocationCount,
    instanceId, uuid, benchTypeCommon, flags, header, rid, bench,
    h1, h2, h3, h4, h5, h6, h7, h8, h9, h10, h11, h12, h13, h14, h15, h16,
    h17, h18, ?_⟩
  simpa [pure, Except.pure] using h.symm

/-- Destructuring a successful `benchmark_fields`: the added keys are
exactly `benchKeys` of the `benchmark.get("type")` value. -/
theorem benchmark_fields_shape {benchmark : Json} {bench : Record}
    (h : benchmark_fields benchmark = .ok bench) :
    ∃ bt, py_get benchmark "type" .null = .ok bt ∧
      bench.map Prod.fst = benchKeys bt := by
  unfold benchmark_fields at h
  obtain ⟨bt, hbt, h⟩ := except_bind_ok h
  refine ⟨bt, hbt, ?_⟩
  by_cases g1 : jsonEqStr bt "gemm" = true
  · rw [if_pos g1] at h
    obtain ⟨a1, _, h⟩ := except_bind_ok h
    obtain ⟨a2, _, h⟩ := except_bind_ok h
    obtain ⟨rfl⟩ := h
    simp [benchKeys, g1]
  rw [if_neg g1] at h
  by_cases g2 : jsonEqStr bt "aesCtr" = true
  · rw [if_pos g2] at h
    obtain ⟨a1, _, h⟩ := except_bind_ok h
    obtain ⟨a2, _, h⟩ := except_bind_ok h
    obtain ⟨a3, _, h⟩ := except_bind_ok h
    obtain ⟨rfl⟩ := h
    simp [benchKeys, g1, g2]
  rw [if_neg g2] at h
  by_cases g3 : jsonEqStr bt "gzip" = true
  · rw [if_pos g3] at h
    obtain ⟨a1, _, h⟩ := except_bind_ok h
    obtain ⟨a2, _, h⟩ := except_bind_ok h
    obtain ⟨rfl⟩ := h
    simp [benchKeys, g1, g2, g3]
  rw [if_neg g3] at h
  by_cases g4 : jsonEqStr bt "sha256" = true
  · rw [if_pos g4] at h
    obtain ⟨a1, _, h⟩ := except_bind_ok h
    obtain ⟨a2, _, h⟩ := except_bind_ok h
    obtain ⟨rfl⟩ := h
    simp [benchKeys, g1, g2, g3, g4]
  rw [if_neg g4] at h
  by_cases g5 : jsonEqStr bt "json" = true
  · rw [if_pos g5] at h
    obtain ⟨a1, _, h⟩ := except_bind_ok h
    obtain ⟨rfl⟩ := h
    simp [benchKeys, g1, g2, g3, g4, g5]
  rw [if_neg g5] at h
  obtain ⟨rfl⟩ := h
  simp [benchKeys, g1, g2, g3, g4, g5]

/-- Destructuring a successful `request_id_fields`: the added fields are the
provider's single request-id binding (read from `header` with default
`"unknown"`), or none for an unrecognized provider. -/
theorem request_id_fields_shape {p : String} {header : Json} {rid : Record}
    (h : request_id_fields p header = .ok rid) :
    rid.map Prod.fst = ridKeys p ∧
    (p = "azure" → ∃ v, py_get header "azure-invocation-id" (.str "unknown") = .ok v ∧
      rid = [("azure_invocation_id", .json v)]) ∧
    (p = "gcp" → ∃ v, py_get header "function-execution-id" (.str "unknown") = .ok v ∧
      rid = [("gcp_execution_id", .json v)]) ∧
    (p = "aws" → ∃ v, py_get header "aws-request-id" (.str "unknown") = .ok v ∧
      rid = [("aws_request_id", .json v)]) ∧
    (p = "alibaba" → ∃ v, py_get header "ali-request-id" (.str "unknown") = .ok v ∧
      rid = [("alibaba_request_id", .json v)]) ∧
    (p ∉ ["azure", "gcp", "aws", "alibaba"] → rid = []) := by
  unfold request_id_fields at h
  by_cases p1 : p = "azure"
  · rw [if_pos p1] at h
    obtain ⟨v, hv, h⟩ := except_bind_ok h
    obtain ⟨rfl⟩ := h
    exact ⟨by simp [ridKeys, p1], fun _ => ⟨v, hv, rfl⟩,
      fun hp => absurd (p1.symm.trans hp) (by decide),
      fun hp => absurd (p1.symm.trans hp) (by decide),
      fun hp => absurd (p1.symm.trans hp) (by decide),
      fun hp => absurd (by simp [p1]) hp⟩
  rw [if_neg p1] at h
  by_cases p2 : p = "gcp"
  · rw [if_pos p2] at h
    obtain ⟨v, hv, h⟩ := except_bind_ok h
    obtain ⟨rfl⟩ := h
    exact ⟨by simp [ridKeys, p1, p2], fun hp => absurd hp p1,
      fun _ => ⟨v, hv, rfl⟩,
      fun hp => absurd (p2.symm.trans hp) (by decide),
      fun hp => absurd (p2.symm.trans hp) (by decide),
      fun hp => absurd (by simp [p2]) hp⟩
  rw [if_neg p2] at h
  by_cases p3 : p = "aws"
  · rw [if_pos p3] at h
    obtain ⟨v, hv, h⟩ := except_bind_ok h
    obtain ⟨rfl⟩ := h
    exact ⟨by simp [ridKeys, p1, p2, p3], fun hp => absurd hp p1,
      fun hp => absurd hp p2, fun _ => ⟨v, hv, rfl⟩,
      fun hp => absurd (p3.symm.trans hp) (by decide),
      fun hp => absurd (by simp [p3]) hp⟩
  rw [if_neg p3] at h
  by_cases p4 : p = "alibaba"
  · rw [if_pos p4] at h
    obtain ⟨v, hv, h⟩ := except_bind_ok h
    obtain ⟨rfl⟩ := h
    exact ⟨by simp [ridKeys, p1, p2, p3, p4], fun hp => absurd hp p1,
      fun hp => absurd hp p2, fun hp => absurd hp p3,
      fun _ => ⟨v, hv, rfl⟩, fun hp => absurd (by simp [p4]) hp⟩
  rw [if_neg p4] at h
  obtain ⟨rfl⟩ := h
  exact ⟨by simp [ridKeys, p1, p2, p3, p4], fun hp => absurd hp p1,
    fun hp => absurd hp p2, fun hp => absurd hp p3, fun hp => absurd hp p4,
    fun _ => rfl⟩

theorem ridKeys_subset {p k : String} (h : k ∈ ridKeys p) : k ∈ allRidKeys := by
  unfold ridKeys at h
  split_ifs at h <;> simp_all [allRidKeys]

theorem benchKeys_mem (bt : Json) :
    ("matrix_size" ∈ benchKeys bt ↔ bt = .str "gemm") ∧
    ("multiplication_time_ms" ∈ benchKeys bt ↔ bt = .str "gemm") ∧
    ("key_size" ∈ benchKeys bt ↔ bt = .str "aesCtr") ∧
    ("encrypt_size_mb" ∈ benchKeys bt ↔ bt = .str "aesCtr") ∧
    ("encrypt_time_ms" ∈ benchKeys bt ↔ bt = .str "aesCtr") ∧
    ("compress_size_mb" ∈ benchKeys bt ↔ bt = .str "gzip") ∧
    ("compress_time_ms" ∈ benchKeys bt ↔ bt = .str "gzip") ∧
    ("hash_size_mb" ∈ benchKeys bt ↔ bt = .str "sha256") ∧
    ("hash_time_ms" ∈ benchKeys bt ↔ bt = .str "sha256") ∧
    ("json_time_ms" ∈ benchKeys bt ↔ bt = .str "json") := by
  cases bt with
  | null => simp [benchKeys, jsonEqStr]
  | bool b => simp [benchKeys, jsonEqStr]
  | int n => simp [benchKeys, jsonEqStr]
  | arr es => simp [benchKeys, jsonEqStr]
  | obj es => simp [benchKeys, jsonEqStr]
  | str s =>
    by_cases e1 : s = "gemm"
    · subst e1; simp [benchKeys, jsonEqStr]
    by_cases e2 : s = "aesCtr"
    · subst e2; simp [benchKeys, jsonEqStr]
    by_cases e3 : s = "gzip"
    · subst e3; simp [benchKeys, jsonEqStr]
    by_cases e4 : s = "sha256"
    · subst e4; simp [benchKeys, jsonEqStr]
    by_cases e5 : s = "json"
    · subst e5; simp [benchKeys, jsonEqStr]
    simp [benchKeys, jsonEqStr, e1, e2, e3, e4, e5]

theorem mem_keys_iff_mem_bench {r : Record} {p : String} {bkeys : List String}
    (heq : r.map Prod.fst = commonKeys ++ ridKeys p ++ bkeys)
    {k : String} (hkc : k ∉ commonKeys) (hkr : k ∉ allRidKeys) :
    (r.hasKey k = true ↔ k ∈ bkeys) := by
  rw [Record.hasKey_iff_mem, heq]
  simp only [List.mem_append]
  constructor
  · rintro ((hc | hr) | hb)
    · exact absurd hc hkc
    · exact absurd (ridKeys_subset hr) hkr
    · exact hb
  · exact fun hb => Or.inr hb

/-! ## C6 -/

/-- **C6**: in every record `build_record` produces, each benchmark-specific
key is present iff the line's `benchmark.get("type")` equals the
corresponding recognized type string — absent (not null-filled) for every
other type; the record's key sequence is exactly the 21 common keys, then
the request-id keys, then the benchmark-specific keys, so the addition never
replaces or changes a common field's binding. -/
theorem C6_benchmark_specific_fields {m : Meta} {data body benchmark bt : Json}
    {r : Record}
    (hbody : py_subscript data "body" = .ok body)
    (hbench : py_get body "benchmark" (.obj []) = .ok benchmark)
    (hbt : py_get benchmark "type" .null = .ok bt)
    (h : build_record m data = .ok r) :
    r.map Prod.fst = commonKeys ++ ridKeys m.provider ++ benchKeys bt ∧
    (r.hasKey "matrix_size" = true ↔ bt = .str "gemm") ∧
    (r.hasKey "multiplication_time_ms" = true ↔ bt = .str "gemm") ∧
    (r.hasKey "key_size" = true ↔ bt = .str "aesCtr") ∧
    (r.hasKey "encrypt_size_mb" = true ↔ bt = .str "aesCtr") ∧
    (r.hasKey "encrypt_time_ms" = true ↔ bt = .str "aesCtr") ∧
    (r.hasKey "compress_size_mb" = true ↔ bt = .str "gzip") ∧
    (r.hasKey "compress_time_ms" = true ↔ bt = .str "gzip") ∧
    (r.hasKey "hash_size_mb" = true ↔ bt = .str "sha256") ∧
    (r.hasKey "hash_time_ms" = true ↔ bt = .str "sha256") ∧
    (r.hasKey "json_time_ms" = true ↔ bt = .str "json") ∧
    (∀ k ∈ commonKeys, Record.find r k = Record.find (r.take 21) k) := by
  obtain ⟨body0, benchmark0, cpuField, cpuFreq, cpuType, cpuModelNum, runtime,
    userRuntime, frameworkRuntime, containerId, newContainer, invocationCount,
    instanceId, uuid, benchTypeCommon, flags, header, rid, bench,
    h1, h2, h3, h4, h5, h6, h7, h8, h9, h10, h11, h12, h13, h14, h15, h16,
    h17, h18, hr⟩ := build_record_ok_shape h
  rw [hbody] at h1
  injection h1 with e1; subst e1
  rw [hbench] at h2
  injection h2 with e2; subst e2
  obtain ⟨bt0, hbt0, hbkeys⟩ := benchmark_fields_shape h18
  rw [hbt] at hbt0
  injection hbt0 with e3; subst e3
  have hridkeys := (request_id_fields_shape h17).1
  have heq : r.map Prod.fst = commonKeys ++ ridKeys m.provider ++ benchKeys bt := by
    subst hr
    simp only [List.map_append, hridkeys, hbkeys]
    rfl
  have hbm := benchKeys_mem bt
  refine ⟨heq,
    (mem_keys_iff_mem_bench heq (by decide) (by decide)).trans hbm.1,
    (mem_keys_iff_mem_bench heq (by decide) (by decide)).trans hbm.2.1,
    (mem_keys_iff_mem_bench heq (by decide) (by decide)).trans hbm.2.2.1,
    (mem_keys_iff_mem_bench heq (by decide) (by decide)).trans hbm.2.2.2.1,
    (mem_keys_iff_mem_bench heq (by decide) (by decide)).trans hbm.2.2.2.2.1,
    (mem_keys_iff_mem_bench heq (by decide) (by decide)).trans hbm.2.2.2.2.2.1,
    (mem_keys_iff_mem_bench heq (by decide) (by decide)).trans hbm.2.2.2.2.2.2.1,
    (mem_keys_iff_mem_bench heq (by decide) (by decide)).trans
      hbm.2.2.2.2.2.2.2.1,
    (mem_keys_iff_mem_bench heq (by decide) (by decide)).trans
      hbm.2.2.2.2.2.2.2.2.1,
    (mem_keys_iff_mem_bench heq (by decide) (by decide)).trans
      hbm.2.2.2.2.2.2.2.2.2,
    ?_⟩
  intro k hk
  subst hr
  rw [List.append_assoc]
  have htake : ([("timestamp", Value.dt m.timestamp),
      ("provider", .json (.str m.provider)),
      ("region", .json m.region),
      ("function", .json m.func),
      ("memory_size_mb", .json (.int m.memory)),
      ("parallel_requests", .json (.int m.parallel)),
      ("iterations_per_benchmark", .json (.int m.iterations)),
      ("retries", .json (.int m.retries)),
      ("cpu_type", .json (.str cpuType)),
      ("cpu_model_number", .json cpuModelNum),
      ("runtime_ms", .json runtime),
      ("user_runtime_ms", .json userRuntime),
      ("framework_runtime_ms", .json frameworkRuntime),
      ("container_id", .json containerId),
      ("new_container", .json newContainer),
      ("invocation_count", .json invocationCount),
      ("instance_id", .json instanceId),
      ("uuid", .json uuid),
      ("benchmark_type", .json benchTypeCommon),
      ("flags", .json flags),
      ("cpu_frequency", .json cpuFreq)] ++ (rid ++ bench)).take 21 =
      [("timestamp", Value.dt m.timestamp),
      ("provider", .json (.str m.provider)),
      ("region", .json m.region),
      ("function", .json m.func),
      ("memory_size_mb", .json (.int m.memory)),
      ("parallel_requests", .json (.int m.parallel)),
      ("iterations_per_benchmark", .json (.int m.iterations)),
      ("retries", .json (.int m.retries)),
      ("cpu_type", .json (.str cpuType)),
      ("cpu_model_number", .json cpuModelNum),
      ("runtime_ms", .json runtime),
      ("user_runtime_ms", .json userRuntime),
      ("framework_runtime_ms", .json frameworkRuntime),
      ("container_id", .json containerId),
      ("new_container", .json newContainer),
      ("invocation_count", .json invocationCount),
      ("instance_id", .json instanceId),
      ("uuid", .json uuid),
      ("benchmark_type", .json benchTypeCommon),
      ("flags", .json flags),
      ("cpu_frequency", .json cpuFreq)] := by
    rw [show 21 = ([("timestamp", Value.dt m.timestamp),
      ("provider", .json (.str m.provider)),
      ("region", .json m.region),
      ("function", .json m.func),
      ("memory_size_mb", .json (.int m.memory)),
      ("parallel_requests", .json (.int m.parallel)),
      ("iterations_per_benchmark", .json (.int m.iterations)),
      ("retries", .json (.int m.retries)),
      ("cpu_type", .json (.str cpuType)),
      ("cpu_model_number", .json cpuModelNum),
      ("runtime_ms", .json runtime),
      ("user_runtime_ms", .json userRuntime),
      ("framework_runtime_ms", .json frameworkRuntime),
      ("container_id", .json containerId),
      ("new_container", .json newContainer),
      ("invocation_count", .json invocationCount),
      ("instance_id", .json instanceId),
      ("uuid", .json uuid),
      ("benchmark_type", .json benchTypeCommon),
      ("flags", .json flags),
      ("cpu_frequency", .json cpuFreq)] : Record).length from rfl]
    exact List.take_left _ _
  rw [htake]
  refine Record.find_append_left _ _ _ ?_
  revert hk
  simp [commonKeys]

/-! ## C7 -/

theorem ridKeys_filter_self (p : String) :
    (ridKeys p).filter (fun k => allRidKeys.contains k) = ridKeys p := by
  unfold ridKeys
  split_ifs <;> decide

theorem benchKeys_filter_rid (bt : Json) :
    (benchKeys bt).filter (fun k => allRidKeys.contains k) = [] := by
  unfold benchKeys
  split_ifs <;> decide

theorem benchKeys_subset {bt : Json} {k : String} (h : k ∈ benchKeys bt) :
    k ∈ allBenchKeys := by
  unfold benchKeys at h
  split_ifs at h <;> simp_all [allBenchKeys] <;> tauto

/-- **C7**: every record carries exactly the request-id keys of its provider:
for `azure`/`gcp`/`aws`/`alibaba` exactly one provider-specific field, bound
to the line's header value under the provider's header key (with `.get`
default `"unknown"` when absent); for any other provider value the record is
still produced and carries none of the four request-id fields. -/
theorem C7_request_id_field {m : Meta} {data header : Json} {r : Record}
    (hheader : py_get data "header" (.obj []) = .ok header)
    (h : build_record m data = .ok r) :
    ((r.map Prod.fst).filter (fun k => allRidKeys.contains k) = ridKeys m.provider) ∧
    (m.provider = "azure" →
      ∃ v, py_get header "azure-invocation-id" (.str "unknown") = .ok v ∧
        Record.find r "azure_invocation_id" = some (.json v)) ∧
    (m.provider = "gcp" →
      ∃ v, py_get header "function-execution-id" (.str "unknown") = .ok v ∧
        Record.find r "gcp_execution_id" = some (.json v)) ∧
    (m.provider = "aws" →
      ∃ v, py_get header "aws-request-id" (.str "unknown") = .ok v ∧
        Record.find r "aws_request_id" = some (.json v)) ∧
    (m.provider = "alibaba" →
      ∃ v, py_get header "ali-request-id" (.str "unknown") = .ok v ∧
        Record.find r "alibaba_request_id" = some (.json v)) ∧
    (m.provider ∉ ["azure", "gcp", "aws", "alibaba"] →
      ∀ k ∈ allRidKeys, r.hasKey k = false) := by
  obtain ⟨body0, benchmark0, cpuField, cpuFreq, cpuType, cpuModelNum, runtime,
    userRuntime, frameworkRuntime, containerId, newContainer, invocationCount,
    instanceId, uuid, benchTypeCommon, flags, header0, rid, bench,
    h1, h2, h3, h4, h5, h6, h7, h8, h9, h10, h11, h12, h13, h14, h15, h16,
    h17, h18, hr⟩ := build_record_ok_shape h
  rw [hheader] at h16
  injection h16 with e16; subst e16
  obtain ⟨bt, hbt, hbkeys⟩ := benchmark_fields_shape h18
  obtain ⟨hridkeys, haz, hgc, haw, hal, hun⟩ := request_id_fields_shape h17
  have hnc : ∀ x ∈ allRidKeys, x ∉ commonKeys := by decide
  have hnb : ∀ x ∈ allRidKeys, x ∉ allBenchKeys := by decide
  have hbase : ∀ k, k ∈ allRidKeys → Record.find r k = Record.find (rid ++ bench) k := by
    intro k hk
    subst hr
    rw [List.append_assoc]
    refine Record.find_append_right _ _ _ ?_
    exact hnc k hk
  refine ⟨?_, ?_, ?_, ?_, ?_, ?_⟩
  · subst hr
    simp only [List.map_append, List.filter_append, hridkeys, hbkeys,
      ridKeys_filter_self, benchKeys_filter_rid]
    rw [show (List.filter (fun k => allRidKeys.contains k)
      (List.map Prod.fst
        [("timestamp", Value.dt m.timestamp),
         ("provider", .json (.str m.provider)),
         ("region", .json m.region),
         ("function", .json m.func),
         ("memory_size_mb", .json (.int m.memory)),
         ("parallel_requests", .json (.int m.parallel)),
         ("iterations_per_benchmark", .json (.int m.iterations)),
         ("retries", .json (.int m.retries)),
         ("cpu_type", .json (.str cpuType)),
         ("cpu_model_number", .json cpuModelNum),
         ("runtime_ms", .json runtime),
         ("user_runtime_ms", .json userRuntime),
         ("framework_runtime_ms", .json frameworkRuntime),
         ("container_id", .json containerId),
         ("new_container", .json newContainer),
         ("invocation_count", .json invocationCount),
         ("instance_id", .json instanceId),
         ("uuid", .json uuid),
         ("benchmark_type", .json benchTypeCommon),
         ("flags", .json flags),
         ("cpu_frequency", .json cpuFreq)])) = [] from rfl]
    simp
  · intro hp
    obtain ⟨v, hv, hrid⟩ := haz hp
    refine ⟨v, hv, ?_⟩
    rw [hbase "azure_invocation_id" (by decide), hrid]
    rfl
  · intro hp
    obtain ⟨v, hv, hrid⟩ := hgc hp
    refine ⟨v, hv, ?_⟩
    rw [hbase "gcp_execution_id" (by decide), hrid]
    rfl
  · intro hp
    obtain ⟨v, hv, hrid⟩ := haw hp
    refine ⟨v, hv, ?_⟩
    rw [hbase "aws_request_id" (by decide), hrid]
    rfl
  · intro hp
    obtain ⟨v, hv, hrid⟩ := hal hp
    refine ⟨v, hv, ?_⟩
    rw [hbase "alibaba_request_id" (by decide), hrid]
    rfl
  · intro hp k hk
    have hrid := hun hp
    subst hrid
    rw [Bool.eq_false_iff]
    intro hcon
    rw [Record.hasKey_iff_mem] at hcon
    subst hr
    simp only [List.map_append, List.nil_append, List.mem_append] at hcon
    rcases hcon with (hc | hc) | hc
    · exact hnc k hk hc
    · simp at hc
    · rw [hbkeys] at hc
      exact hnb k hk (benchKeys_subset hc)

/-- **C6** (witness): the theorem applied to the concrete `gemm` record —
both `gemm` keys present, the other types' keys absent, and the full key
sequence as stated. -/
theorem C6_witness :
    build_record meta_aws_meta line_gemm = .ok rec_gemm ∧
    rec_gemm.hasKey "matrix_size" = true ∧
    rec_gemm.hasKey "multiplication_time_ms" = true ∧
    rec_gemm.hasKey "json_time_ms" = false ∧
    rec_gemm.hasKey "hash_size_mb" = false ∧
    rec_gemm.map Prod.fst = commonKeys ++ ridKeys "aws" ++ benchKeys (.str "gemm") := by
  have hm := @C6_benchmark_specific_fields meta_aws_meta line_gemm _ _
    (.str "gemm") rec_gemm rfl rfl rfl rfl
  refine ⟨rfl, (hm.2.1).mpr rfl, (hm.2.2.1).mpr rfl, ?_, ?_, hm.1⟩
  · rw [Bool.eq_false_iff]
    intro hc
    have := (hm.2.2.2.2.2.2.2.2.2.2.1).mp hc
    simp at this
  · rw [Bool.eq_false_iff]
    intro hc
    have := (hm.2.2.2.2.2.2.2.2.1).mp hc
    simp at this

/-- **C7** (witness): the theorem applied to the concrete `aws` record
(exactly the `aws_request_id` field, bound to the header's value) and to the
unknown-provider record (produced, with none of the four request-id
fields). -/
theorem C7_witness :
    ((rec_gemm.map Prod.fst).filter (fun k => allRidKeys.contains k) =
      ["aws_request_id"]) ∧
    Record.find rec_gemm "aws_request_id" = some (.json (.str "rid-1")) ∧
    (∀ k ∈ allRidKeys, c9_record.hasKey k = false) := by
  have h1 := @C7_request_id_field meta_aws_meta line_gemm
    (.obj [("aws-request-id", .str "rid-1")]) rec_gemm rfl rfl
  have h2 := @C7_request_id_field meta_empty_meta line_minimal
    (.obj []) c9_record rfl rfl
  refine ⟨h1.1, ?_, ?_⟩
  · obtain ⟨v, hv, hfind⟩ := h1.2.2.2.1 rfl
    injection hv with e
    subst e
    exact hfind
  · exact fun k hk => h2.2.2.2.2.2 (by decide) k hk

/-! ## C9 -/

theorem shorten_cpu_name_ok_str {cf : Json} {cs : String}
    (h : shorten_cpu_name cf = .ok cs) : cf = .str cs := by
  cases cf <;> simp [shorten_cpu_name] at h
  exact congrArg Json.str h

theorem gcp_cpu_label_ne_empty (model : Json) : gcp_cpu_label model ≠ "" := by
  rw [gcp_cpu_label_eq_spec]
  unfold gcp_label_spec
  split_ifs <;> try decide
  intro hcon
  have hl := congrArg String.length hcon
  rw [String.length_append, String.length_append] at hl
  have h6 : ("Model " : String).length = 6 := rfl
  have h10 : (" (Unknown)" : String).length = 10 := rfl
  have h0 : ("" : String).length = 0 := rfl
  omega

theorem amd_aws_label_ne_empty {freq : Json} {l : String}
    (h : amd_aws_label freq = .ok l) : l ≠ "" := by
  unfold amd_aws_label at h
  by_cases t : py_truthy freq = true
  · rw [if_pos t] at h
    cases hg1 : py_ge freq 2640 with
    | error e => simp only [hg1] at h; exact Except.noConfusion h
    | ok ge1 =>
      simp only [hg1] at h
      cases hl1 : (if ge1 then py_le freq 2660 else Except.ok false) with
      | error e => simp only [hl1] at h; exact Except.noConfusion h
      | ok le1 =>
        simp only [hl1] at h
        by_cases b1 : (ge1 && le1) = true
        · rw [if_pos b1] at h
          injection h with e
          subst e
          decide
        · rw [if_neg b1] at h
          cases hg2 : py_ge freq 2240 with
          | error e => simp only [hg2] at h; exact Except.noConfusion h
          | ok ge2 =>
            simp only [hg2] at h
            cases hl2 : (if ge2 then py_le freq 2260 else Except.ok false) with
            | error e => simp only [hl2] at h; exact Except.noConfusion h
            | ok le2 =>
              simp only [hl2] at h
              by_cases b2 : (ge2 && le2) = true
              · rw [if_pos b2] at h
                injection h with e
                subst e
                decide
              · rw [if_neg b2] at h
                injection h with e
                subst e
                decide
  · rw [if_neg t] at h
    injection h with e
    subst e
    decide

/-- The three possible pre-normalization outcomes of `resolve_cpu` on an
object body: the GCP table image, an AWS AMD frequency label, or the raw
`cpuType` value. -/
theorem resolve_cpu_cases {p : String} {bodyKvs : List (String × Json)}
    {cf freq : Json}
    (h : resolve_cpu p (.obj bodyKvs) = .ok (cf, freq)) :
    (p = "gcp" ∧ cf = .str (gcp_cpu_label
        ((lookupLast bodyKvs "cpuModel").getD (.str "unknown")))) ∨
    (∃ l, amd_aws_label ((lookupLast bodyKvs "cpuFrequencyMHz").getD .null) = .ok l ∧
      cf = .str l) ∨
    (p ≠ "gcp" ∧ cf = (lookupLast bodyKvs "cpuType").getD (.str "unknown")) := by
  by_cases hp : p = "gcp"
  · subst hp
    left
    refine ⟨rfl, ?_⟩
    unfold resolve_cpu at h
    simp only [py_get, Bind.bind, Except.bind] at h
    simp only [if_true, pure, Except.pure, py_contains] at h
    have hfalse : (decide (("gcp" : String) = "aws")) = false := by decide
    simp only [hfalse, Bool.and_false, Bool.false_eq_true, if_false] at h
    injection h with h
    injection h with h1 h2
    exact h1.symm
  · right
    unfold resolve_cpu at h
    simp only [py_get, Bind.bind, Except.bind] at h
    rw [if_neg hp] at h
    simp only [pure, Except.pure] at h
    cases hcont : py_contains "AMD" ((lookupLast bodyKvs "cpuType").getD (.str "unknown")) with
    | error e =>
      simp only [hcont] at h
      exact Except.noConfusion h
    | ok hasAMD =>
      simp only [hcont] at h
      by_cases hc : (hasAMD && decide (p = "aws")) = true
      · rw [if_pos hc] at h
        cases hamd : amd_aws_label ((lookupLast bodyKvs "cpuFrequencyMHz").getD .null) with
        | error e =>
          simp only [hamd] at h
          exact Except.noConfusion h
        | ok l =>
          simp only [hamd] at h
          injection h with h
          injection h with h1 h2
          exact Or.inl ⟨l, rfl, h1.symm⟩
      · rw [if_neg hc] at h
        injection h with h
        injection h with h1 h2
        exact Or.inr ⟨hp, h1.symm⟩

/-- The provider `extract_meta` produces: the lower-cased string value of the
metadata's `provider` field (default `"unknown"`), which must be a string. -/
theorem extract_meta_provider {kvs : List (String × Json)} {m : Meta}
    (h : extract_meta (.obj kvs) = .ok m) :
    ∃ s, (lookupLast kvs "provider").getD (.str "unknown") = .str s ∧
      m.provider = String.mk (s.toList.map Char.toLower) := by
  unfold extract_meta at h
  obtain ⟨tsRaw, hts, h⟩ := except_bind_ok h
  obtain ⟨tsStr, _, h⟩ := except_bind_ok h
  obtain ⟨ts, _, h⟩ := except_bind_ok h
  obtain ⟨pr, hpr, h⟩ := except_bind_ok h
  obtain ⟨prov, hprov, h⟩ := except_bind_ok h
  obtain ⟨reg, _, h⟩ := except_bind_ok h
  obtain ⟨memRaw, _, h⟩ := except_bind_ok h
  obtain ⟨mem, _, h⟩ := except_bind_ok h
  obtain ⟨fn, _, h⟩ := except_bind_ok h
  obtain ⟨paRaw, _, h⟩ := except_bind_ok h
  obtain ⟨pa, _, h⟩ := except_bind_ok h
  obtain ⟨itRaw, _, h⟩ := except_bind_ok h
  obtain ⟨it, _, h⟩ := except_bind_ok h
  obtain ⟨reRaw, _, h⟩ := except_bind_ok h
  obtain ⟨re, _, h⟩ := except_bind_ok h
  have h2 : (Except.ok (Meta.mk ts prov reg fn mem pa it re) :
      Except PyErr Meta) = Except.ok m := h
  injection h2 with h2
  have hpr2 : (lookupLast kvs "provider").getD (.str "unknown") = pr := by
    simpa [py_get] using hpr
  cases pr with
  | str s =>
    refine ⟨s, hpr2, ?_⟩
    have hprov2 : (Except.ok (String.mk (s.toList.map Char.toLower)) :
        Except PyErr String) = Except.ok prov := hprov
    injection hprov2 with hprov2
    rw [← h2]
    exact hprov2.symm
  | null =>
    exact Except.noConfusion (show (Except.error PyErr.attributeError :
      Except PyErr String) = Except.ok prov from hprov)
  | bool b =>
    exact Except.noConfusion (show (Except.error PyErr.attributeError :
      Except PyErr String) = Except.ok prov from hprov)
  | int n =>
    exact Except.noConfusion (show (Except.error PyErr.attributeError :
      Except PyErr String) = Except.ok prov from hprov)
  | arr es =>
    exact Except.noConfusion (show (Except.error PyErr.attributeError :
      Except PyErr String) = Except.ok prov from hprov)
  | obj es =>
    exact Except.noConfusion (show (Except.error PyErr.attributeError :
      Except PyErr String) = Except.ok prov from hprov)

theorem mk_lower_ne_empty : ∀ {s : String},
    s ≠ "" → String.mk (s.toList.map Char.toLower) ≠ ""
  | ⟨[]⟩, h => absurd rfl h
  | ⟨c :: cs⟩, _ => by
    intro hcon
    exact absurd (congrArg String.data hcon) (by simp [String.toList])

/-- **C9** (counterexample): the claim's invariant fails on two concrete
files — a metadata line whose `provider` is present but the empty string
yields a record with `provider = ""`, and a line whose `cpuType` is present
but the empty string yields (through the pass-through normalizer) a record
with `cpu_type = ""`. -/
theorem C9_counterexample :
    parse_log_file [some meta_empty_provider, some line_minimal] =
      .ok [c9_record] ∧
    Record.find c9_record "provider" = some (.json (.str "")) ∧
    parse_log_file [some meta_aws, some line_empty_cpu] = .ok [c9_record2] ∧
    Record.find c9_record2 "cpu_type" = some (.json (.str "")) :=
  ⟨rfl, rfl, rfl, rfl⟩

/-- **C9** (amended): every record's `provider` and `cpu_type` are strings;
`provider` is the lower-cased metadata provider falling back to `"unknown"`
when absent, hence non-empty whenever the metadata's provider value is
absent or a non-empty string; `cpu_type` is the normalizer's image of the
resolved cpu field, non-empty whenever the line's `cpuType` is absent
(falling back to `"unknown"`) or a non-empty string — the GCP and AWS-AMD
resolution paths always produce non-empty labels. -/
theorem C9_amended_provider_cpu_type {mj data : Json}
    {kvs bodyKvs : List (String × Json)} {m : Meta} {r : Record}
    (hmj : mj = .obj kvs)
    (hex : extract_meta mj = .ok m)
    (hbody : py_subscript data "body" = .ok (.obj bodyKvs))
    (h : build_record m data = .ok r) :
    Record.find r "provider" = some (.json (.str m.provider)) ∧
    (lookupLast kvs "provider" = none → m.provider = "unknown") ∧
    ((lookupLast kvs "provider" = none ∨
      ∃ s, lookupLast kvs "provider" = some (.str s) ∧ s ≠ "") →
      m.provider ≠ "") ∧
    ∃ cs, Record.find r "cpu_type" = some (.json (.str cs)) ∧
      ((lookupLast bodyKvs "cpuType" = none ∨
        ∃ s, lookupLast bodyKvs "cpuType" = some (.str s) ∧ s ≠ "") →
        cs ≠ "") := by
  subst hmj
  obtain ⟨s0, hs0, hprov⟩ := extract_meta_provider hex
  obtain ⟨body0, benchmark0, cpuField, cpuFreq, cpuType, cpuModelNum, runtime,
    userRuntime, frameworkRuntime, containerId, newContainer, invocationCount,
    instanceId, uuid, benchTypeCommon, flags, header0, rid, bench,
    h1, h2, h3, h4, h5, h6, h7, h8, h9, h10, h11, h12, h13, h14, h15, h16,
    h17, h18, hr⟩ := build_record_ok_shape h
  rw [hbody] at h1
  injection h1 with e1
  subst e1
  refine ⟨?_, ?_, ?_, ?_⟩
  · subst hr; rfl
  · intro hnone
    rw [hnone] at hs0
    injection hs0 with e
    rw [hprov, ← e]
    decide
  · rintro (hnone | ⟨s, hsome, hne⟩)
    · rw [hnone] at hs0
      injection hs0 with e
      rw [hprov, ← e]
      decide
    · rw [hsome] at hs0
      injection hs0 with e
      rw [hprov, ← e]
      exact mk_lower_ne_empty hne
  · refine ⟨cpuType, by subst hr; rfl, ?_⟩
    intro hty
    have hcf := shorten_cpu_name_ok_str h4
    rcases resolve_cpu_cases h3 with ⟨_, hgcp⟩ | ⟨l, hl, hamd⟩ | ⟨_, hraw⟩
    · rw [hcf] at hgcp
      injection hgcp with e
      rw [e]
      exact gcp_cpu_label_ne_empty _
    · rw [hcf] at hamd
      injection hamd with e
      rw [e]
      exact amd_aws_label_ne_empty hl
    · rw [hcf] at hraw
      rcases hty with hnone | ⟨s, hsome, hne⟩
      · rw [hnone] at hraw
        injection hraw with e
        rw [e]
        decide
      · rw [hsome] at hraw
        injection hraw with e
        rw [e]
        exact hne

/-- **C9** (witness): the amended theorem applied at the concrete AWS file
with an absent `cpuType`: provider `"aws"` and `cpu_type` `"unknown"`, both
non-empty. -/
theorem C9_witness :
    Record.find rec_aws_minimal "provider" = some (.json (.str "aws")) ∧
    meta_aws_meta.provider ≠ "" ∧
    (∃ cs, Record.find rec_aws_minimal "cpu_type" = some (.json (.str cs)) ∧
      cs ≠ "") := by
  have hm := @C9_amended_provider_cpu_type meta_aws line_minimal
    [("timestamp", .str "2024-05-01T00:00:00Z"),
     ("provider", .str "aws"), ("memorySize", .int 128)]
    [] meta_aws_meta rec_aws_minimal rfl rfl rfl rfl
  refine ⟨hm.1, hm.2.2.1 (Or.inr ⟨"aws", rfl, by decide⟩), ?_⟩
  obtain ⟨cs, hcs, hne⟩ := hm.2.2.2
  exact ⟨cs, hcs, hne (Or.inl rfl)⟩

end ClassiFaaS
